import Mathlib

/-!
Verification of `add_test_files.py`, the Xcode-manifest patcher of the
AllTrailsLunch repository.

The script reads the whole `project.pbxproj` file as one string, locates four
regions with lazy-DOTALL regular expressions, appends freshly identified
declaration entries to each located region through global string replacement,
and writes the file back.

Shallow embedding used here:
* a document is a `List Char`;
* each of the four `re.search` calls starts with a fixed literal and chains
  lazy `.*?` gaps, so a match exists iff the required literals occur in order,
  and the returned groups are determined by the successive first occurrences of
  those literals; the searches are therefore embedded as first-occurrence
  scans (`findFirstFrom`);
* Python `str.replace` (which rewrites every non-overlapping occurrence, left
  to right, without rescanning the replacement text) is embedded as
  `replaceAll`;
* the file system is an `Option (List Char)` holding the content stored at the
  single hard-coded path, together with counters for the read and write
  operations the run performs and the list of printed lines;
* the random draws of `uuid.uuid4().hex` are inputs of the embedded functions.
-/

set_option maxRecDepth 8000
set_option maxHeartbeats 4000000

abbrev L := List Char

/-- The whitespace characters removed by Python `str.rstrip()`. -/
def pySpace (c : Char) : Bool :=
  c = ' ' || c = '\t' || c = '\n' || c = '\r' || c = '\x0b' || c = '\x0c'

/-- Python `s.rstrip()`: drop the trailing whitespace run. -/
def rstrip (s : L) : L := (s.reverse.dropWhile pySpace).reverse

/-- Python slice `s[a:b]` (with `0 ≤ a ≤ b`; both ends clamp to the length). -/
def extract (s : L) (a b : Nat) : L := (s.take b).drop a

/-- `n` occurs in `s` at position `p`. -/
def occursAtB (n s : L) (p : Nat) : Bool := n.isPrefixOf (s.drop p)

/-- Scan helper: first position `≥ p` (relative numbering) where `n` occurs in `t`. -/
def findFirstAux (n : L) : L → Nat → Option Nat
  | [], _ => none
  | c :: rest, p =>
    if n.isPrefixOf (c :: rest) then some p else findFirstAux n rest (p + 1)

/-- First position `≥ start` at which `n` occurs in `s` (Python `s.find(n, start)`
for a nonempty needle; also the start of the lazy-regex match of the literal `n`). -/
def findFirstFrom (n s : L) (start : Nat) : Option Nat :=
  findFirstAux n (s.drop start) start

/-- Python `n in s` for a nonempty needle `n`. -/
def containsStr (n s : L) : Bool := (findFirstFrom n s 0).isSome

/-- Accumulator for `occCount` (tail recursion keeps evaluation shallow). -/
def occCountAux (n : L) : Nat → L → Nat
  | acc, [] => acc
  | acc, c :: rest =>
    match n.isPrefixOf (c :: rest) with
    | true => occCountAux n (acc + 1) rest
    | false => occCountAux n acc rest

/-- Number of positions at which `n` occurs in `s` (one linear scan; for the
nonempty needles used here this counts every occurrence position). -/
def occCount (n s : L) : Nat := occCountAux n 0 s

/-- Scanner for `replaceAll`.  While `skip > 0` the character was already consumed
by an earlier replacement; at `skip = 0` an occurrence of `old` is replaced by
`new` and the scan resumes behind the occurrence. -/
def replAux (old new : L) : L → Nat → L
  | [], _ => []
  | _ :: rest, k + 1 => replAux old new rest k
  | c :: rest, 0 =>
    if old.isPrefixOf (c :: rest) && !(old.length == 0) then
      new ++ replAux old new rest (old.length - 1)
    else
      c :: replAux old new rest 0

/-- Python `s.replace(old, new)` for a nonempty `old`: replace every
non-overlapping occurrence, left to right, never rescanning replacement text.
(The script only ever calls it with nonempty `old`; for `old = []` this model
returns `s` unchanged.) -/
def replaceAll (old new s : L) : L := replAux old new s 0

/-- Boolean equality of documents by one shallow scan (used to state concrete
equalities of large documents without deep proof terms). -/
def listEqB : L → L → Bool
  | [], [] => true
  | a :: as, b :: bs => a == b && listEqB as bs
  | _, _ => false

/- ### The fixed literals of the four patterns -/

def grpMarker : L := "/* AllTrailsLunchAppTests */".toList

def childrenLit : L := "children = (".toList

def parenSemi : L := ");".toList

def frBegin : L := "/* Begin PBXFileReference section */".toList

def frEnd : L := "/* End PBXFileReference section */".toList

def bfBegin : L := "/* Begin PBXBuildFile section */".toList

def bfEnd : L := "/* End PBXBuildFile section */".toList

def srcMarker : L := "/* Sources */".toList

def srcIsa : L := "isa = PBXSourcesBuildPhase;".toList

def filesLit : L := "files = (".toList

def runOnlyLit : L := "runOnlyForDeploymentPostprocessing".toList

def tgtMarker : L := "AllTrailsLunchAppTests".toList

/- ### The inserted entry texts (f-strings of the script) -/

/-- Group-children entry `\n\t\t\t\t{uuid} /* FavoritesManagerTests.swift */,`. -/
def favRefChildLine (u : L) : L :=
  "\n\t\t\t\t".toList ++ u ++ " /* FavoritesManagerTests.swift */,".toList

/-- Group-children entry for `RestaurantManagerTests.swift`. -/
def resRefChildLine (u : L) : L :=
  "\n\t\t\t\t".toList ++ u ++ " /* RestaurantManagerTests.swift */,".toList

/-- `new_children`: right-trim, normalize the trailing comma, append the two
new child entries. -/
def newChildrenOf (kids u1 u2 : L) : L :=
  let base := rstrip kids
  let base := if [','].isSuffixOf base then base else base ++ [',']
  base ++ favRefChildLine u1 ++ resRefChildLine u2

/-- The two `PBXFileReference` declaration lines appended to the
file-reference section (the triple-quoted f-string of the script). -/
def fileRefBlock (u1 u2 : L) : L :=
  "\n\t\t".toList ++ u1 ++
    " /* FavoritesManagerTests.swift */ = \x7bisa = PBXFileReference; lastKnownFileType = sourcecode.swift; path = FavoritesManagerTests.swift; sourceTree = \"<group>\"; \x7d;".toList ++
  "\n\t\t".toList ++ u2 ++
    " /* RestaurantManagerTests.swift */ = \x7bisa = PBXFileReference; lastKnownFileType = sourcecode.swift; path = RestaurantManagerTests.swift; sourceTree = \"<group>\"; \x7d;".toList ++
  "\n".toList

/-- The two `PBXBuildFile` declaration lines; each names its file-reference
identifier in its `fileRef` field. -/
def buildFileBlock (u1 u2 u3 u4 : L) : L :=
  "\n\t\t".toList ++ u3 ++
    " /* FavoritesManagerTests.swift in Sources */ = \x7bisa = PBXBuildFile; fileRef = ".toList ++ u1 ++
    " /* FavoritesManagerTests.swift */; \x7d;".toList ++
  "\n\t\t".toList ++ u4 ++
    " /* RestaurantManagerTests.swift in Sources */ = \x7bisa = PBXBuildFile; fileRef = ".toList ++ u2 ++
    " /* RestaurantManagerTests.swift */; \x7d;".toList ++
  "\n".toList

/-- Sources-phase entry `\n\t\t\t\t{uuid} /* FavoritesManagerTests.swift in Sources */,`. -/
def srcFavLine (u : L) : L :=
  "\n\t\t\t\t".toList ++ u ++ " /* FavoritesManagerTests.swift in Sources */,".toList

/-- Sources-phase entry for `RestaurantManagerTests.swift`. -/
def srcResLine (u : L) : L :=
  "\n\t\t\t\t".toList ++ u ++ " /* RestaurantManagerTests.swift in Sources */,".toList

/-- `new_sources`: right-trim, normalize the trailing comma, append the two
new sources-phase entries. -/
def newSourcesOf (files u3 u4 : L) : L :=
  let base := rstrip files
  let base := if [','].isSuffixOf base then base else base ++ [',']
  base ++ srcFavLine u3 ++ srcResLine u4

/- ### The four region searches -/

/-- Result of the group regex
`(/\* AllTrailsLunchAppTests \*/.*?children = \()(.*?)(\);)` (DOTALL):
`s0` is the match start, `cs`/`ce` delimit capture group 2 (the children list
body), and the match ends at `ce + 2`. -/
structure GroupMatch where
  s0 : Nat
  cs : Nat
  ce : Nat
  deriving DecidableEq, Repr

/-- The group search.  The pattern starts with the fixed marker literal and
chains lazy gaps, so `re.search` succeeds iff the three literals occur in
order, and it returns the successive first occurrences. -/
def searchGroup (doc : L) : Option GroupMatch :=
  match findFirstFrom grpMarker doc 0 with
  | none => none
  | some i =>
    match findFirstFrom childrenLit doc (i + grpMarker.length) with
    | none => none
    | some j =>
      match findFirstFrom parenSemi doc (j + childrenLit.length) with
      | none => none
      | some k => some ⟨i, j + childrenLit.length, k⟩

/-- Search for `(beginLit)(.*?)(endLit)` (DOTALL): the first occurrence of
`beginLit` and the first occurrence of `endLit` behind it. -/
def searchSection (beginLit endLit doc : L) : Option (Nat × Nat) :=
  match findFirstFrom beginLit doc 0 with
  | none => none
  | some i =>
    match findFirstFrom endLit doc (i + beginLit.length) with
    | none => none
    | some j => some (i, j)

/-- Result of the sources-phase regex
`(/\* Sources \*/.*?isa = PBXSourcesBuildPhase;.*?files = \()(.*?)(\);.*?runOnlyForDeploymentPostprocessing)`:
`s0` is the match start, `fs`/`fe` delimit capture group 2 (the files list
body), `e0` is the match end. -/
structure SourcesMatch where
  s0 : Nat
  fs : Nat
  fe : Nat
  e0 : Nat
  deriving DecidableEq, Repr

/-- The sources-phase search: successive first occurrences of the five fixed
literals of the pattern. -/
def searchSources (doc : L) : Option SourcesMatch :=
  match findFirstFrom srcMarker doc 0 with
  | none => none
  | some i =>
    match findFirstFrom srcIsa doc (i + srcMarker.length) with
    | none => none
    | some a =>
      match findFirstFrom filesLit doc (a + srcIsa.length) with
      | none => none
      | some b =>
        match findFirstFrom parenSemi doc (b + filesLit.length) with
        | none => none
        | some k =>
          match findFirstFrom runOnlyLit doc (k + parenSemi.length) with
          | none => none
          | some r => some ⟨i, b + filesLit.length, k, r + runOnlyLit.length⟩

/- ### The four rewrite steps (lines 34-100 of the script) -/

/-- Lines 34-53: locate the test group and extend its children list; `none`
when the group pattern does not match (the fatal case). -/
def stepGroup (u1 u2 : L) (doc : L) : Option L :=
  match searchGroup doc with
  | none => none
  | some m =>
    let g0 := extract doc m.s0 (m.ce + 2)
    let g1 := extract doc m.s0 m.cs
    let g2 := extract doc m.cs m.ce
    some (replaceAll g0 (g1 ++ newChildrenOf g2 u1 u2 ++ parenSemi) doc)

/-- Lines 56-65: extend the `PBXFileReference` section when present, otherwise
leave the document unchanged. -/
def stepFileRef (u1 u2 : L) (doc : L) : L :=
  match searchSection frBegin frEnd doc with
  | none => doc
  | some (p, q) =>
    let g0 := extract doc p (q + frEnd.length)
    let body := extract doc (p + frBegin.length) q
    replaceAll g0 (frBegin ++ (body ++ fileRefBlock u1 u2) ++ frEnd) doc

/-- Lines 68-77: extend the `PBXBuildFile` section when present, otherwise
leave the document unchanged. -/
def stepBuildFile (u1 u2 u3 u4 : L) (doc : L) : L :=
  match searchSection bfBegin bfEnd doc with
  | none => doc
  | some (p, q) =>
    let g0 := extract doc p (q + bfEnd.length)
    let body := extract doc (p + bfBegin.length) q
    replaceAll g0 (bfBegin ++ (body ++ buildFileBlock u1 u2 u3 u4) ++ bfEnd) doc

/-- Lines 81-100: extend the first matching sources-phase files list, but only
when the marker string lies within the 1000-character context window around
the match. -/
def stepSources (u3 u4 : L) (doc : L) : L :=
  match searchSources doc with
  | none => doc
  | some m =>
    let ctx := extract doc (m.s0 - 1000) (m.e0 + 1000)
    if containsStr tgtMarker ctx then
      let g0 := extract doc m.s0 m.e0
      let g1 := extract doc m.s0 m.fs
      let g2 := extract doc m.fs m.fe
      let g3 := extract doc m.fe m.e0
      replaceAll g0 (g1 ++ newSourcesOf g2 u3 u4 ++ g3) doc
    else doc

/- ### The whole run -/

/-- Outcome of one call of `add_files_to_xcode_project`: the returned flag, the
manifest content afterwards (`none` when the file is absent), how many times
the file was read and written, and the printed lines. -/
structure RunResult where
  ret : Bool
  file : Option L
  reads : Nat
  writes : Nat
  msgs : List L
  deriving DecidableEq, Repr

def errMissingMsg : L :=
  "❌ Error: AllTrailsLunchApp.xcodeproj/project.pbxproj not found".toList

def errNoGroupMsg : L :=
  "❌ Error: Could not find AllTrailsLunchAppTests group".toList

/-- The three success lines printed on lines 106-108 of the script. -/
def successMsgs (u1 u2 : L) : List L :=
  ["✅ Successfully added test files to Xcode project!".toList,
   "   - FavoritesManagerTests.swift (UUID: ".toList ++ u1 ++ ")".toList,
   "   - RestaurantManagerTests.swift (UUID: ".toList ++ u2 ++ ")".toList]

/-- `add_files_to_xcode_project()`.  `u1`/`u2` are the file-reference UUIDs,
`u3`/`u4` the build-file UUIDs generated on lines 27-30; `fs0` is the content
stored at the hard-coded manifest path (`none` when the file does not exist). -/
def add_files_to_xcode_project (u1 u2 u3 u4 : L) (fs0 : Option L) : RunResult :=
  match fs0 with
  | none => ⟨false, none, 0, 0, [errMissingMsg]⟩
  | some content =>
    match stepGroup u1 u2 content with
    | none => ⟨false, some content, 1, 0, [errNoGroupMsg]⟩
    | some c1 =>
      let c4 := stepSources u3 u4 (stepBuildFile u1 u2 u3 u4 (stepFileRef u1 u2 c1))
      ⟨true, some c4, 1, 1, successMsgs u1 u2⟩

/-- Outcome of running the script as `__main__`: the process exit code, the
inner run, and all printed lines. -/
structure MainResult where
  exitCode : Nat
  run : RunResult
  msgs : List L

/-- The `__main__` block (lines 111-122).  It never calls `sys.exit`, so the
process always terminates with exit code 0; success and failure differ only in
the printed lines. -/
def mainScript (u1 u2 u3 u4 : L) (fs0 : Option L) : MainResult :=
  let headerMsg := "🔧 Adding test files to Xcode project...".toList
  let r := add_files_to_xcode_project u1 u2 u3 u4 fs0
  let tail :=
    if r.ret then
      ["\n✅ Done! You can now:".toList,
       "   1. Open the project in Xcode".toList,
       "   2. Build the project (⌘B)".toList,
       "   3. Run tests (⌘U)".toList]
    else
      ["\n❌ Failed to add files. Please add them manually in Xcode.".toList,
       "   See ADD_TEST_FILES_TO_XCODE.md for instructions.".toList]
  ⟨0, r, headerMsg :: (r.msgs ++ tail)⟩

/- ### The identifier generator (lines 11-13) -/

/-- The sixteen digits that can appear in `uuid.uuid4().hex`. -/
def lowHexDigits : L := "0123456789abcdef".toList

/-- The sixteen digits of the uppercase Xcode identifier format. -/
def upHexDigits : L := "0123456789ABCDEF".toList

/-- `str.upper` on one character, restricted to ASCII (all the script ever
uppercases are the hex digits of `uuid4().hex`). -/
def pyUpperChar (c : Char) : Char :=
  if 'a' ≤ c && c ≤ 'z' then Char.ofNat (c.toNat - 32) else c

/-- `generate_uuid()`: `uuid.uuid4().hex[:24].upper()`.  The 32-character
lowercase hex string produced by `uuid.uuid4().hex` is the input. -/
def generate_uuid (hex32 : L) : L := (hex32.take 24).map pyUpperChar

/-- Shape of a value of `uuid.uuid4().hex`: 32 lowercase hex digits. -/
def validUuid4Hex (h : L) : Bool :=
  h.length == 32 && h.all (fun c => lowHexDigits.contains c)

/-- The fixed-length identifier format: exactly 24 uppercase hex characters. -/
def uuidFormatOk (u : L) : Bool :=
  u.length == 24 && u.all (fun c => upHexDigits.contains c)

/-- Whether the four identifiers generated from the four random draws of one
run are pairwise distinct. -/
def runIdsDistinct (h1 h2 h3 h4 : L) : Bool :=
  generate_uuid h1 != generate_uuid h2 &&
  generate_uuid h1 != generate_uuid h3 &&
  generate_uuid h1 != generate_uuid h4 &&
  generate_uuid h2 != generate_uuid h3 &&
  generate_uuid h2 != generate_uuid h4 &&
  generate_uuid h3 != generate_uuid h4

/- ### Explicit forms of the four rewrites, for the theorems -/

/-- What the group step produces when its matched text occurs exactly once:
the children body is rewritten in place, everything else is kept. -/
def groupPatched (u1 u2 : L) (doc : L) (m : GroupMatch) : L :=
  doc.take m.cs ++ newChildrenOf (extract doc m.cs m.ce) u1 u2 ++ doc.drop m.ce

/-- What a section step produces when its matched text occurs exactly once:
`block` is appended to the section body delimited by `p + beginLit.length`
and `q`. -/
def sectionPatched (beginLit block : L) (doc : L) (p q : Nat) : L :=
  doc.take (p + beginLit.length) ++
    (extract doc (p + beginLit.length) q ++ block) ++ doc.drop q

/-- What the sources step produces when its matched text occurs exactly once
and the context window contains the marker. -/
def sourcesPatched (u3 u4 : L) (doc : L) (m : SourcesMatch) : L :=
  doc.take m.fs ++ newSourcesOf (extract doc m.fs m.fe) u3 u4 ++ doc.drop m.fe

/- ### Frame relation used by the frame-effect claim -/

/-- One local rewrite that keeps every character outside `[p, e)`, keeps the
non-whitespace part of the region body, deletes only a trailing whitespace run
of the body, and inserts new text behind it. -/
def InsertOnlyAt (s t : L) : Prop :=
  ∃ p e keep ws ins, p ≤ e ∧
    extract s p e = keep ++ ws ∧ (∀ c ∈ ws, pySpace c = true) ∧
    t = s.take p ++ (keep ++ ins) ++ s.drop e

/-- A step of the pipeline either leaves the document unchanged or performs one
`InsertOnlyAt` rewrite. -/
def InsertOnly (s t : L) : Prop := s = t ∨ InsertOnlyAt s t

/- ### Concrete demonstration manifests and identifiers -/

def demoU1 : L := "AAAAAAAAAAAAAAAAAAAAAAA1".toList

def demoU2 : L := "AAAAAAAAAAAAAAAAAAAAAAA2".toList

def demoU3 : L := "AAAAAAAAAAAAAAAAAAAAAAA3".toList

def demoU4 : L := "AAAAAAAAAAAAAAAAAAAAAAA4".toList

def demoW1 : L := "BBBBBBBBBBBBBBBBBBBBBBB1".toList

def demoW2 : L := "BBBBBBBBBBBBBBBBBBBBBBB2".toList

def demoW3 : L := "BBBBBBBBBBBBBBBBBBBBBBB3".toList

def demoW4 : L := "BBBBBBBBBBBBBBBBBBBBBBB4".toList

/-- A small well-formed manifest: build-file section, file-reference section,
the test group, and a sources phase near the group marker. -/
def demoDoc : L :=
  ("/* Begin PBXBuildFile section */\n\t\tAAA1 /* App.swift in Sources */ = bf;\n/* End PBXBuildFile section */\n/* Begin PBXFileReference section */\n\t\tBBB1 /* App.swift */ = fr;\n/* End PBXFileReference section */\n\t\tGRP /* AllTrailsLunchAppTests */ = g; children = (\n\t\t\t\tBBB1 /* App.swift */,\n\t\t\t);\n\t\tPHS /* Sources */ = ph; isa = PBXSourcesBuildPhase; files = (\n\t\t\t\tAAA1 /* App.swift in Sources */,\n\t\t\t); runOnlyForDeploymentPostprocessing = 0;\n").toList

/-- The group match of `demoDoc` (checked in the witnesses). -/
def demoGM : GroupMatch := ⟨211, 257, 287⟩

def demoD1 : L := ("/* Begin PBXBuildFile section */\n\t\tAAA1 /* App.swift in Sources */ = bf;\n/* End PBXBuildFile section */\n/* Begin PBXFileReference section */\n\t\tBBB1 /* App.swift */ = fr;\n/* End PBXFileReference section */\n\t\tGRP /* AllTrailsLunchAppTests */ = g; children = (\n\t\t\t\tBBB1 /* App.swift */,\n\t\t\t\tAAAAAAAAAAAAAAAAAAAAAAA1 /* FavoritesManagerTests.swift */,\n\t\t\t\tAAAAAAAAAAAAAAAAAAAAAAA2 /* RestaurantManagerTests.swift */,);\n\t\tPHS /* Sources */ = ph; isa = PBXSourcesBuildPhase; files = (\n\t\t\t\tAAA1 /* App.swift in Sources */,\n\t\t\t); runOnlyForDeploymentPostprocessing = 0;\n").toList

def demoFR : Nat × Nat := (104, 170)

def demoD2 : L := ("/* Begin PBXBuildFile section */\n\t\tAAA1 /* App.swift in Sources */ = bf;\n/* End PBXBuildFile section */\n/* Begin PBXFileReference section */\n\t\tBBB1 /* App.swift */ = fr;\n\n\t\tAAAAAAAAAAAAAAAAAAAAAAA1 /* FavoritesManagerTests.swift */ = \x7bisa = PBXFileReference; lastKnownFileType = sourcecode.swift; path = FavoritesManagerTests.swift; sourceTree = \"<group>\"; \x7d;\n\t\tAAAAAAAAAAAAAAAAAAAAAAA2 /* RestaurantManagerTests.swift */ = \x7bisa = PBXFileReference; lastKnownFileType = sourcecode.swift; path = RestaurantManagerTests.swift; sourceTree = \"<group>\"; \x7d;\n/* End PBXFileReference section */\n\t\tGRP /* AllTrailsLunchAppTests */ = g; children = (\n\t\t\t\tBBB1 /* App.swift */,\n\t\t\t\tAAAAAAAAAAAAAAAAAAAAAAA1 /* FavoritesManagerTests.swift */,\n\t\t\t\tAAAAAAAAAAAAAAAAAAAAAAA2 /* RestaurantManagerTests.swift */,);\n\t\tPHS /* Sources */ = ph; isa = PBXSourcesBuildPhase; files = (\n\t\t\t\tAAA1 /* App.swift in Sources */,\n\t\t\t); runOnlyForDeploymentPostprocessing = 0;\n").toList

def demoBF : Nat × Nat := (0, 73)

def demoD3 : L := ("/* Begin PBXBuildFile section */\n\t\tAAA1 /* App.swift in Sources */ = bf;\n\n\t\tAAAAAAAAAAAAAAAAAAAAAAA3 /* FavoritesManagerTests.swift in Sources */ = \x7bisa = PBXBuildFile; fileRef = AAAAAAAAAAAAAAAAAAAAAAA1 /* FavoritesManagerTests.swift */; \x7d;\n\t\tAAAAAAAAAAAAAAAAAAAAAAA4 /* RestaurantManagerTests.swift in Sources */ = \x7bisa = PBXBuildFile; fileRef = AAAAAAAAAAAAAAAAAAAAAAA2 /* RestaurantManagerTests.swift */; \x7d;\n/* End PBXBuildFile section */\n/* Begin PBXFileReference section */\n\t\tBBB1 /* App.swift */ = fr;\n\n\t\tAAAAAAAAAAAAAAAAAAAAAAA1 /* FavoritesManagerTests.swift */ = \x7bisa = PBXFileReference; lastKnownFileType = sourcecode.swift; path = FavoritesManagerTests.swift; sourceTree = \"<group>\"; \x7d;\n\t\tAAAAAAAAAAAAAAAAAAAAAAA2 /* RestaurantManagerTests.swift */ = \x7bisa = PBXFileReference; lastKnownFileType = sourcecode.swift; path = RestaurantManagerTests.swift; sourceTree = \"<group>\"; \x7d;\n/* End PBXFileReference section */\n\t\tGRP /* AllTrailsLunchAppTests */ = g; children = (\n\t\t\t\tBBB1 /* App.swift */,\n\t\t\t\tAAAAAAAAAAAAAAAAAAAAAAA1 /* FavoritesManagerTests.swift */,\n\t\t\t\tAAAAAAAAAAAAAAAAAAAAAAA2 /* RestaurantManagerTests.swift */,);\n\t\tPHS /* Sources */ = ph; isa = PBXSourcesBuildPhase; files = (\n\t\t\t\tAAA1 /* App.swift in Sources */,\n\t\t\t); runOnlyForDeploymentPostprocessing = 0;\n").toList

def demoSM : SourcesMatch := ⟨1141, 1198, 1239, 1276⟩

def demoD4 : L := ("/* Begin PBXBuildFile section */\n\t\tAAA1 /* App.swift in Sources */ = bf;\n\n\t\tAAAAAAAAAAAAAAAAAAAAAAA3 /* FavoritesManagerTests.swift in Sources */ = \x7bisa = PBXBuildFile; fileRef = AAAAAAAAAAAAAAAAAAAAAAA1 /* FavoritesManagerTests.swift */; \x7d;\n\t\tAAAAAAAAAAAAAAAAAAAAAAA4 /* RestaurantManagerTests.swift in Sources */ = \x7bisa = PBXBuildFile; fileRef = AAAAAAAAAAAAAAAAAAAAAAA2 /* RestaurantManagerTests.swift */; \x7d;\n/* End PBXBuildFile section */\n/* Begin PBXFileReference section */\n\t\tBBB1 /* App.swift */ = fr;\n\n\t\tAAAAAAAAAAAAAAAAAAAAAAA1 /* FavoritesManagerTests.swift */ = \x7bisa = PBXFileReference; lastKnownFileType = sourcecode.swift; path = FavoritesManagerTests.swift; sourceTree = \"<group>\"; \x7d;\n\t\tAAAAAAAAAAAAAAAAAAAAAAA2 /* RestaurantManagerTests.swift */ = \x7bisa = PBXFileReference; lastKnownFileType = sourcecode.swift; path = RestaurantManagerTests.swift; sourceTree = \"<group>\"; \x7d;\n/* End PBXFileReference section */\n\t\tGRP /* AllTrailsLunchAppTests */ = g; children = (\n\t\t\t\tBBB1 /* App.swift */,\n\t\t\t\tAAAAAAAAAAAAAAAAAAAAAAA1 /* FavoritesManagerTests.swift */,\n\t\t\t\tAAAAAAAAAAAAAAAAAAAAAAA2 /* RestaurantManagerTests.swift */,);\n\t\tPHS /* Sources */ = ph; isa = PBXSourcesBuildPhase; files = (\n\t\t\t\tAAA1 /* App.swift in Sources */,\n\t\t\t\tAAAAAAAAAAAAAAAAAAAAAAA3 /* FavoritesManagerTests.swift in Sources */,\n\t\t\t\tAAAAAAAAAAAAAAAAAAAAAAA4 /* RestaurantManagerTests.swift in Sources */,); runOnlyForDeploymentPostprocessing = 0;\n").toList

/- The same pipeline for a second run on the once-patched document. -/

def demoGM2 : GroupMatch := ⟨931, 977, 1132⟩

def demoE1 : L := ("/* Begin PBXBuildFile section */\n\t\tAAA1 /* App.swift in Sources */ = bf;\n\n\t\tAAAAAAAAAAAAAAAAAAAAAAA3 /* FavoritesManagerTests.swift in Sources */ = \x7bisa = PBXBuildFile; fileRef = AAAAAAAAAAAAAAAAAAAAAAA1 /* FavoritesManagerTests.swift */; \x7d;\n\t\tAAAAAAAAAAAAAAAAAAAAAAA4 /* RestaurantManagerTests.swift in Sources */ = \x7bisa = PBXBuildFile; fileRef = AAAAAAAAAAAAAAAAAAAAAAA2 /* RestaurantManagerTests.swift */; \x7d;\n/* End PBXBuildFile section */\n/* Begin PBXFileReference section */\n\t\tBBB1 /* App.swift */ = fr;\n\n\t\tAAAAAAAAAAAAAAAAAAAAAAA1 /* FavoritesManagerTests.swift */ = \x7bisa = PBXFileReference; lastKnownFileType = sourcecode.swift; path = FavoritesManagerTests.swift; sourceTree = \"<group>\"; \x7d;\n\t\tAAAAAAAAAAAAAAAAAAAAAAA2 /* RestaurantManagerTests.swift */ = \x7bisa = PBXFileReference; lastKnownFileType = sourcecode.swift; path = RestaurantManagerTests.swift; sourceTree = \"<group>\"; \x7d;\n/* End PBXFileReference section */\n\t\tGRP /* AllTrailsLunchAppTests */ = g; children = (\n\t\t\t\tBBB1 /* App.swift */,\n\t\t\t\tAAAAAAAAAAAAAAAAAAAAAAA1 /* FavoritesManagerTests.swift */,\n\t\t\t\tAAAAAAAAAAAAAAAAAAAAAAA2 /* RestaurantManagerTests.swift */,\n\t\t\t\tBBBBBBBBBBBBBBBBBBBBBBB1 /* FavoritesManagerTests.swift */,\n\t\t\t\tBBBBBBBBBBBBBBBBBBBBBBB2 /* RestaurantManagerTests.swift */,);\n\t\tPHS /* Sources */ = ph; isa = PBXSourcesBuildPhase; files = (\n\t\t\t\tAAA1 /* App.swift in Sources */,\n\t\t\t\tAAAAAAAAAAAAAAAAAAAAAAA3 /* FavoritesManagerTests.swift in Sources */,\n\t\t\t\tAAAAAAAAAAAAAAAAAAAAAAA4 /* RestaurantManagerTests.swift in Sources */,); runOnlyForDeploymentPostprocessing = 0;\n").toList

def demoFR2 : Nat × Nat := (443, 890)

def demoE2 : L := ("/* Begin PBXBuildFile section */\n\t\tAAA1 /* App.swift in Sources */ = bf;\n\n\t\tAAAAAAAAAAAAAAAAAAAAAAA3 /* FavoritesManagerTests.swift in Sources */ = \x7bisa = PBXBuildFile; fileRef = AAAAAAAAAAAAAAAAAAAAAAA1 /* FavoritesManagerTests.swift */; \x7d;\n\t\tAAAAAAAAAAAAAAAAAAAAAAA4 /* RestaurantManagerTests.swift in Sources */ = \x7bisa = PBXBuildFile; fileRef = AAAAAAAAAAAAAAAAAAAAAAA2 /* RestaurantManagerTests.swift */; \x7d;\n/* End PBXBuildFile section */\n/* Begin PBXFileReference section */\n\t\tBBB1 /* App.swift */ = fr;\n\n\t\tAAAAAAAAAAAAAAAAAAAAAAA1 /* FavoritesManagerTests.swift */ = \x7bisa = PBXFileReference; lastKnownFileType = sourcecode.swift; path = FavoritesManagerTests.swift; sourceTree = \"<group>\"; \x7d;\n\t\tAAAAAAAAAAAAAAAAAAAAAAA2 /* RestaurantManagerTests.swift */ = \x7bisa = PBXFileReference; lastKnownFileType = sourcecode.swift; path = RestaurantManagerTests.swift; sourceTree = \"<group>\"; \x7d;\n\n\t\tBBBBBBBBBBBBBBBBBBBBBBB1 /* FavoritesManagerTests.swift */ = \x7bisa = PBXFileReference; lastKnownFileType = sourcecode.swift; path = FavoritesManagerTests.swift; sourceTree = \"<group>\"; \x7d;\n\t\tBBBBBBBBBBBBBBBBBBBBBBB2 /* RestaurantManagerTests.swift */ = \x7bisa = PBXFileReference; lastKnownFileType = sourcecode.swift; path = RestaurantManagerTests.swift; sourceTree = \"<group>\"; \x7d;\n/* End PBXFileReference section */\n\t\tGRP /* AllTrailsLunchAppTests */ = g; children = (\n\t\t\t\tBBB1 /* App.swift */,\n\t\t\t\tAAAAAAAAAAAAAAAAAAAAAAA1 /* FavoritesManagerTests.swift */,\n\t\t\t\tAAAAAAAAAAAAAAAAAAAAAAA2 /* RestaurantManagerTests.swift */,\n\t\t\t\tBBBBBBBBBBBBBBBBBBBBBBB1 /* FavoritesManagerTests.swift */,\n\t\t\t\tBBBBBBBBBBBBBBBBBBBBBBB2 /* RestaurantManagerTests.swift */,);\n\t\tPHS /* Sources */ = ph; isa = PBXSourcesBuildPhase; files = (\n\t\t\t\tAAA1 /* App.swift in Sources */,\n\t\t\t\tAAAAAAAAAAAAAAAAAAAAAAA3 /* FavoritesManagerTests.swift in Sources */,\n\t\t\t\tAAAAAAAAAAAAAAAAAAAAAAA4 /* RestaurantManagerTests.swift in Sources */,); runOnlyForDeploymentPostprocessing = 0;\n").toList

def demoBF2 : Nat × Nat := (0, 412)

def demoE3 : L := ("/* Begin PBXBuildFile section */\n\t\tAAA1 /* App.swift in Sources */ = bf;\n\n\t\tAAAAAAAAAAAAAAAAAAAAAAA3 /* FavoritesManagerTests.swift in Sources */ = \x7bisa = PBXBuildFile; fileRef = AAAAAAAAAAAAAAAAAAAAAAA1 /* FavoritesManagerTests.swift */; \x7d;\n\t\tAAAAAAAAAAAAAAAAAAAAAAA4 /* RestaurantManagerTests.swift in Sources */ = \x7bisa = PBXBuildFile; fileRef = AAAAAAAAAAAAAAAAAAAAAAA2 /* RestaurantManagerTests.swift */; \x7d;\n\n\t\tBBBBBBBBBBBBBBBBBBBBBBB3 /* FavoritesManagerTests.swift in Sources */ = \x7bisa = PBXBuildFile; fileRef = BBBBBBBBBBBBBBBBBBBBBBB1 /* FavoritesManagerTests.swift */; \x7d;\n\t\tBBBBBBBBBBBBBBBBBBBBBBB4 /* RestaurantManagerTests.swift in Sources */ = \x7bisa = PBXBuildFile; fileRef = BBBBBBBBBBBBBBBBBBBBBBB2 /* RestaurantManagerTests.swift */; \x7d;\n/* End PBXBuildFile section */\n/* Begin PBXFileReference section */\n\t\tBBB1 /* App.swift */ = fr;\n\n\t\tAAAAAAAAAAAAAAAAAAAAAAA1 /* FavoritesManagerTests.swift */ = \x7bisa = PBXFileReference; lastKnownFileType = sourcecode.swift; path = FavoritesManagerTests.swift; sourceTree = \"<group>\"; \x7d;\n\t\tAAAAAAAAAAAAAAAAAAAAAAA2 /* RestaurantManagerTests.swift */ = \x7bisa = PBXFileReference; lastKnownFileType = sourcecode.swift; path = RestaurantManagerTests.swift; sourceTree = \"<group>\"; \x7d;\n\n\t\tBBBBBBBBBBBBBBBBBBBBBBB1 /* FavoritesManagerTests.swift */ = \x7bisa = PBXFileReference; lastKnownFileType = sourcecode.swift; path = FavoritesManagerTests.swift; sourceTree = \"<group>\"; \x7d;\n\t\tBBBBBBBBBBBBBBBBBBBBBBB2 /* RestaurantManagerTests.swift */ = \x7bisa = PBXFileReference; lastKnownFileType = sourcecode.swift; path = RestaurantManagerTests.swift; sourceTree = \"<group>\"; \x7d;\n/* End PBXFileReference section */\n\t\tGRP /* AllTrailsLunchAppTests */ = g; children = (\n\t\t\t\tBBB1 /* App.swift */,\n\t\t\t\tAAAAAAAAAAAAAAAAAAAAAAA1 /* FavoritesManagerTests.swift */,\n\t\t\t\tAAAAAAAAAAAAAAAAAAAAAAA2 /* RestaurantManagerTests.swift */,\n\t\t\t\tBBBBBBBBBBBBBBBBBBBBBBB1 /* FavoritesManagerTests.swift */,\n\t\t\t\tBBBBBBBBBBBBBBBBBBBBBBB2 /* RestaurantManagerTests.swift */,);\n\t\tPHS /* Sources */ = ph; isa = PBXSourcesBuildPhase; files = (\n\t\t\t\tAAA1 /* App.swift in Sources */,\n\t\t\t\tAAAAAAAAAAAAAAAAAAAAAAA3 /* FavoritesManagerTests.swift in Sources */,\n\t\t\t\tAAAAAAAAAAAAAAAAAAAAAAA4 /* RestaurantManagerTests.swift in Sources */,); runOnlyForDeploymentPostprocessing = 0;\n").toList

def demoSM2 : SourcesMatch := ⟨1990, 2047, 2235, 2272⟩

def demoE4 : L := ("/* Begin PBXBuildFile section */\n\t\tAAA1 /* App.swift in Sources */ = bf;\n\n\t\tAAAAAAAAAAAAAAAAAAAAAAA3 /* FavoritesManagerTests.swift in Sources */ = \x7bisa = PBXBuildFile; fileRef = AAAAAAAAAAAAAAAAAAAAAAA1 /* FavoritesManagerTests.swift */; \x7d;\n\t\tAAAAAAAAAAAAAAAAAAAAAAA4 /* RestaurantManagerTests.swift in Sources */ = \x7bisa = PBXBuildFile; fileRef = AAAAAAAAAAAAAAAAAAAAAAA2 /* RestaurantManagerTests.swift */; \x7d;\n\n\t\tBBBBBBBBBBBBBBBBBBBBBBB3 /* FavoritesManagerTests.swift in Sources */ = \x7bisa = PBXBuildFile; fileRef = BBBBBBBBBBBBBBBBBBBBBBB1 /* FavoritesManagerTests.swift */; \x7d;\n\t\tBBBBBBBBBBBBBBBBBBBBBBB4 /* RestaurantManagerTests.swift in Sources */ = \x7bisa = PBXBuildFile; fileRef = BBBBBBBBBBBBBBBBBBBBBBB2 /* RestaurantManagerTests.swift */; \x7d;\n/* End PBXBuildFile section */\n/* Begin PBXFileReference section */\n\t\tBBB1 /* App.swift */ = fr;\n\n\t\tAAAAAAAAAAAAAAAAAAAAAAA1 /* FavoritesManagerTests.swift */ = \x7bisa = PBXFileReference; lastKnownFileType = sourcecode.swift; path = FavoritesManagerTests.swift; sourceTree = \"<group>\"; \x7d;\n\t\tAAAAAAAAAAAAAAAAAAAAAAA2 /* RestaurantManagerTests.swift */ = \x7bisa = PBXFileReference; lastKnownFileType = sourcecode.swift; path = RestaurantManagerTests.swift; sourceTree = \"<group>\"; \x7d;\n\n\t\tBBBBBBBBBBBBBBBBBBBBBBB1 /* FavoritesManagerTests.swift */ = \x7bisa = PBXFileReference; lastKnownFileType = sourcecode.swift; path = FavoritesManagerTests.swift; sourceTree = \"<group>\"; \x7d;\n\t\tBBBBBBBBBBBBBBBBBBBBBBB2 /* RestaurantManagerTests.swift */ = \x7bisa = PBXFileReference; lastKnownFileType = sourcecode.swift; path = RestaurantManagerTests.swift; sourceTree = \"<group>\"; \x7d;\n/* End PBXFileReference section */\n\t\tGRP /* AllTrailsLunchAppTests */ = g; children = (\n\t\t\t\tBBB1 /* App.swift */,\n\t\t\t\tAAAAAAAAAAAAAAAAAAAAAAA1 /* FavoritesManagerTests.swift */,\n\t\t\t\tAAAAAAAAAAAAAAAAAAAAAAA2 /* RestaurantManagerTests.swift */,\n\t\t\t\tBBBBBBBBBBBBBBBBBBBBBBB1 /* FavoritesManagerTests.swift */,\n\t\t\t\tBBBBBBBBBBBBBBBBBBBBBBB2 /* RestaurantManagerTests.swift */,);\n\t\tPHS /* Sources */ = ph; isa = PBXSourcesBuildPhase; files = (\n\t\t\t\tAAA1 /* App.swift in Sources */,\n\t\t\t\tAAAAAAAAAAAAAAAAAAAAAAA3 /* FavoritesManagerTests.swift in Sources */,\n\t\t\t\tAAAAAAAAAAAAAAAAAAAAAAA4 /* RestaurantManagerTests.swift in Sources */,\n\t\t\t\tBBBBBBBBBBBBBBBBBBBBBBB3 /* FavoritesManagerTests.swift in Sources */,\n\t\t\t\tBBBBBBBBBBBBBBBBBBBBBBB4 /* RestaurantManagerTests.swift in Sources */,); runOnlyForDeploymentPostprocessing = 0;\n").toList

/-- A manifest with only the test group: every optional section is absent. -/
def c8Doc : L :=
  ("\t\tGRP /* AllTrailsLunchAppTests */ = g; children = (\n\t\t\t\tBBB1,\n\t\t\t);\n").toList

/-- A manifest with the group and the file-reference section but no
build-file section. -/
def c5Doc : L :=
  ("/* Begin PBXFileReference section */\n\t\tBBB1 /* App.swift */ = fr;\n/* End PBXFileReference section */\n\t\tGRP /* AllTrailsLunchAppTests */ = g; children = (\n\t\t\t\tBBB1 /* App.swift */,\n\t\t\t);\n").toList

/-- The group match of `c5Doc`. -/
def c5GM : GroupMatch := ⟨107, 153, 183⟩

def c5D1 : L := groupPatched demoU1 demoU2 c5Doc c5GM

/-- The group match of `c8Doc`. -/
def c8GM : GroupMatch := ⟨6, 52, 66⟩

def c8D1 : L := groupPatched demoU1 demoU2 c8Doc c8GM

/-- One complete sources-build-phase region (contains no group marker). -/
def c3Region : L :=
  ("/* Sources */ = s; isa = PBXSourcesBuildPhase; files = (\n\t\t\t\tAAA1 /* App.swift in Sources */,\n\t\t\t); runOnlyForDeploymentPostprocessing = 0; end.").toList

/-- 1100 filler characters, putting the marker far outside the first
region's 1000-character context window. -/
def c3Pad : L := List.replicate 1100 'x'

/-- Two textually identical sources-phase regions; the group marker sits just
behind the second one, inside its window only. -/
def c3Doc : L :=
  c3Region ++ c3Pad ++ c3Region ++
    ("\nGRP2 /* AllTrailsLunchAppTests */ = g; children = (\n\t\t\t\tBBB1,\n\t\t\t);\n").toList

/-- The sources match that the regex returns on `c3Doc`, on the single region
`c3Region`, and on the group-patched `c3D1`: the decoy region at position 0. -/
def c3SM : SourcesMatch := ⟨0, 56, 97, 134⟩

/-- The group match of `c3Doc` (inside the tail, far behind the filler). -/
def c3GM : GroupMatch := ⟨1394, 1440, 1454⟩

def c3D1 : L := groupPatched demoU1 demoU2 c3Doc c3GM

/- ### Random draws for the identifier claims -/

def demoHexA : L := "0123456789abcdef0123456789abcdef".toList

def demoHexB : L := List.replicate 32 'a'

def demoHexC : L := List.replicate 32 'b'

def demoHexD : L := List.replicate 32 'c'

/- ### Basic facts about the string operations -/

theorem occursAtB_iff (n s : L) (p : Nat) : occursAtB n s p = true ↔ n <+: s.drop p := by
  rw [occursAtB]
  exact List.isPrefixOf_iff_prefix

theorem extract_eq (s : L) (a b : Nat) : extract s a b = (s.drop a).take (b - a) := by
  rw [extract, List.drop_take]

theorem length_extract (s : L) (a b : Nat) (hb : b ≤ s.length) :
    (extract s a b).length = b - a := by
  rw [extract_eq, List.length_take, List.length_drop]
  omega

theorem occursAtB_extract (s : L) (a b : Nat) : occursAtB (extract s a b) s a = true := by
  rw [occursAtB_iff, extract_eq]
  exact List.take_prefix _ _

theorem occursAtB_le (n s : L) (p : Nat) (hn : n ≠ []) (h : occursAtB n s p = true) :
    p + n.length ≤ s.length := by
  have h' := (occursAtB_iff n s p).mp h
  have h1 := h'.length_le
  rw [List.length_drop] at h1
  have h2 : n.length ≠ 0 := fun he => hn (List.length_eq_zero.mp he)
  omega

theorem occursAtB_drop_split (n s : L) (p : Nat) (h : occursAtB n s p = true) :
    s.drop p = n ++ s.drop (p + n.length) := by
  obtain ⟨t, ht⟩ := (occursAtB_iff n s p).mp h
  have h1 : s.drop (p + n.length) = t := by
    rw [← List.drop_drop, ← ht, List.drop_left]
  rw [h1, ← ht]

theorem occursAtB_take_join (n s : L) (p : Nat) (hn : n ≠ []) (h : occursAtB n s p = true) :
    s.take p ++ n = s.take (p + n.length) := by
  have hlen := occursAtB_le n s p hn h
  have hsplit := occursAtB_drop_split n s p h
  have hs : s = (s.take p ++ n) ++ s.drop (p + n.length) := by
    rw [List.append_assoc, ← hsplit, List.take_append_drop]
  have hlen2 : (s.take p ++ n).length = p + n.length := by
    rw [List.length_append, List.length_take]
    omega
  conv_rhs => rw [hs]
  rw [← hlen2, List.take_left]

theorem take_extract_join (s : L) (a b : Nat) (hab : a ≤ b) :
    s.take a ++ extract s a b = s.take b := by
  rw [extract]
  have h1 : (s.take b).take a = s.take a := by
    rw [List.take_take]
    congr 1
    omega
  calc s.take a ++ (s.take b).drop a
      = (s.take b).take a ++ (s.take b).drop a := by rw [h1]
    _ = s.take b := List.take_append_drop _ _

theorem extract_drop_join (s : L) (a b : Nat) (hab : a ≤ b) :
    extract s a b ++ s.drop b = s.drop a := by
  rw [extract_eq]
  have h1 : (s.drop a).drop (b - a) = s.drop b := by
    rw [List.drop_drop]
    congr 1
    omega
  rw [← h1, List.take_append_drop]

/- ### Specification of the first-occurrence scan -/

theorem bool_eq_false {b : Bool} (h : ¬ b = true) : b = false := by
  cases b
  · rfl
  · exact absurd rfl h

theorem listEqB_eq : ∀ (s t : L), listEqB s t = true → s = t
  | [], [], _ => rfl
  | [], _ :: _, h => Bool.noConfusion h
  | _ :: _, [], h => Bool.noConfusion h
  | a :: as, b :: bs, h => by
    rw [listEqB, Bool.and_eq_true] at h
    have h1 : a = b := by simpa using h.1
    rw [h1, listEqB_eq as bs h.2]

theorem findFirstAux_le (n : L) : ∀ (t : L) (p r : Nat), findFirstAux n t p = some r → p ≤ r
  | [], p, r, h => by simp [findFirstAux] at h
  | c :: rest, p, r, h => by
    rw [findFirstAux] at h
    split at h
    · injection h with h
      omega
    · have := findFirstAux_le n rest (p + 1) r h
      omega

theorem findFirstAux_occ (n : L) : ∀ (t : L) (p r : Nat), findFirstAux n t p = some r →
    n.isPrefixOf (t.drop (r - p)) = true
  | [], p, r, h => by simp [findFirstAux] at h
  | c :: rest, p, r, h => by
    rw [findFirstAux] at h
    split at h
    case isTrue hpre =>
      injection h with h
      subst h
      rw [Nat.sub_self, List.drop_zero]
      exact hpre
    case isFalse hpre =>
      have hle := findFirstAux_le n rest (p + 1) r h
      have ih := findFirstAux_occ n rest (p + 1) r h
      have harith : r - p = (r - (p + 1)) + 1 := by omega
      rw [harith, List.drop_succ_cons]
      exact ih

theorem findFirstAux_min (n : L) : ∀ (t : L) (p r : Nat), findFirstAux n t p = some r →
    ∀ q, p ≤ q → q < r → n.isPrefixOf (t.drop (q - p)) = false
  | [], p, r, h => by simp [findFirstAux] at h
  | c :: rest, p, r, h => by
    rw [findFirstAux] at h
    split at h
    case isTrue hpre =>
      injection h with h
      intro q hq1 hq2
      omega
    case isFalse hpre =>
      intro q hq1 hq2
      rcases Nat.eq_or_lt_of_le hq1 with heq | hlt
      · subst heq
        rw [Nat.sub_self, List.drop_zero]
        exact bool_eq_false hpre
      · have harith : q - p = (q - (p + 1)) + 1 := by omega
        rw [harith, List.drop_succ_cons]
        exact findFirstAux_min n rest (p + 1) r h q hlt hq2

theorem findFirstAux_none (n : L) (hn : n ≠ []) : ∀ (t : L) (p : Nat),
    findFirstAux n t p = none → ∀ q, p ≤ q → n.isPrefixOf (t.drop (q - p)) = false
  | [], p, _, q, _ => by
    rw [List.drop_nil]
    cases n with
    | nil => exact absurd rfl hn
    | cons a as => rfl
  | c :: rest, p, h, q, hq => by
    rw [findFirstAux] at h
    split at h
    · exact absurd h (by simp)
    case isFalse hpre =>
      rcases Nat.eq_or_lt_of_le hq with heq | hlt
      · subst heq
        rw [Nat.sub_self, List.drop_zero]
        exact bool_eq_false hpre
      · have harith : q - p = (q - (p + 1)) + 1 := by omega
        rw [harith, List.drop_succ_cons]
        exact findFirstAux_none n hn rest (p + 1) h q hlt

theorem fff_le (n s : L) (i p : Nat) (h : findFirstFrom n s i = some p) : i ≤ p :=
  findFirstAux_le n _ i p h

theorem fff_occ (n s : L) (i p : Nat) (h : findFirstFrom n s i = some p) :
    occursAtB n s p = true := by
  have h1 := findFirstAux_occ n _ i p h
  have h2 := fff_le n s i p h
  rw [List.drop_drop] at h1
  rw [occursAtB]
  have h3 : i + (p - i) = p := by omega
  rwa [h3] at h1

theorem fff_min (n s : L) (i p : Nat) (h : findFirstFrom n s i = some p) :
    ∀ q, i ≤ q → q < p → occursAtB n s q = false := by
  intro q hq1 hq2
  have h1 := findFirstAux_min n _ i p h q hq1 hq2
  rw [List.drop_drop] at h1
  rw [occursAtB]
  have h3 : i + (q - i) = q := by omega
  rwa [h3] at h1

theorem fff_none (n s : L) (hn : n ≠ []) (i : Nat) (h : findFirstFrom n s i = none) :
    ∀ q, i ≤ q → occursAtB n s q = false := by
  intro q hq
  have h1 := findFirstAux_none n hn _ i h q hq
  rw [List.drop_drop] at h1
  rw [occursAtB]
  have h3 : i + (q - i) = q := by omega
  rwa [h3] at h1

theorem containsStr_of_occurs (n s : L) (hn : n ≠ []) (p : Nat)
    (h : occursAtB n s p = true) : containsStr n s = true := by
  rw [containsStr]
  cases hf : findFirstFrom n s 0 with
  | some _ => rfl
  | none =>
    have := fff_none n s hn 0 hf p (Nat.zero_le p)
    rw [this] at h
    exact absurd h (by simp)

theorem containsStr_of_infix (n s : L) (hn : n ≠ []) (h : n <:+: s) :
    containsStr n s = true := by
  obtain ⟨a, b, hab⟩ := h
  refine containsStr_of_occurs n s hn a.length ?_
  rw [occursAtB_iff, ← hab, List.append_assoc, List.drop_left]
  exact List.prefix_append _ _

/- ### Unique occurrences -/

theorem occCountAux_acc (n : L) : ∀ (s : L) (acc : Nat),
    occCountAux n acc s = acc + occCountAux n 0 s
  | [], acc => by
    rw [occCountAux, occCountAux]
    omega
  | c :: rest, acc => by
    rw [occCountAux, occCountAux]
    cases hp : n.isPrefixOf (c :: rest) with
    | true =>
      dsimp only
      rw [occCountAux_acc n rest (acc + 1), occCountAux_acc n rest (0 + 1)]
      omega
    | false =>
      dsimp only
      exact occCountAux_acc n rest acc

theorem occCount_nil (n : L) : occCount n [] = 0 := rfl

theorem occCount_cons (n : L) (c : Char) (rest : L) :
    occCount n (c :: rest) = (if n.isPrefixOf (c :: rest) then 1 else 0) + occCount n rest := by
  rw [occCount, occCountAux]
  cases hp : n.isPrefixOf (c :: rest) with
  | true =>
    dsimp only
    rw [if_pos rfl, occCountAux_acc, occCount]
  | false =>
    dsimp only
    rw [if_neg (by simp), occCount]
    omega

theorem occursAtB_zero (n : L) (c : Char) (rest : L) :
    occursAtB n (c :: rest) 0 = n.isPrefixOf (c :: rest) := by
  rw [occursAtB, List.drop_zero]

theorem occursAtB_succ (n : L) (c : Char) (rest : L) (q : Nat) :
    occursAtB n (c :: rest) (q + 1) = occursAtB n rest q := by
  rw [occursAtB, occursAtB, List.drop_succ_cons]

theorem occursAtB_nil (n : L) (hn : n ≠ []) (q : Nat) : occursAtB n ([] : L) q = false := by
  rw [occursAtB, List.drop_nil]
  cases n with
  | nil => exact absurd rfl hn
  | cons a as => rfl

theorem occCount_eq_zero (n : L) (hn : n ≠ []) : ∀ (s : L), occCount n s = 0 →
    ∀ q, occursAtB n s q = false
  | [], _, q => occursAtB_nil n hn q
  | c :: rest, h, q => by
    rw [occCount_cons] at h
    by_cases h0 : n.isPrefixOf (c :: rest) = true
    · rw [if_pos h0] at h
      omega
    · rw [if_neg h0] at h
      cases q with
      | zero => rw [occursAtB_zero]; exact bool_eq_false h0
      | succ q' =>
        rw [occursAtB_succ]
        exact occCount_eq_zero n hn rest (by omega) q'

theorem occCount_unique_aux (n : L) (hn : n ≠ []) : ∀ (s : L) (p : Nat),
    occCount n s = 1 → occursAtB n s p = true →
    ∀ q, occursAtB n s q = true → q = p
  | [], p, _, hp, _, _ => by
    rw [occursAtB_nil n hn] at hp
    exact absurd hp (by simp)
  | c :: rest, p, hc, hp, q, hq => by
    rw [occCount_cons] at hc
    by_cases h0 : n.isPrefixOf (c :: rest) = true
    · rw [if_pos h0] at hc
      have hz := occCount_eq_zero n hn rest (by omega)
      have hzero : ∀ r, occursAtB n (c :: rest) r = true → r = 0 := by
        intro r hr
        cases r with
        | zero => rfl
        | succ r' =>
          rw [occursAtB_succ, hz r'] at hr
          exact absurd hr (by simp)
      rw [hzero p hp, hzero q hq]
    · rw [if_neg h0] at hc
      obtain ⟨p', rfl⟩ : ∃ p', p = p' + 1 := by
        cases p with
        | zero => rw [occursAtB_zero] at hp; exact absurd hp h0
        | succ p' => exact ⟨p', rfl⟩
      obtain ⟨q', rfl⟩ : ∃ q', q = q' + 1 := by
        cases q with
        | zero => rw [occursAtB_zero] at hq; exact absurd hq h0
        | succ q' => exact ⟨q', rfl⟩
      rw [occursAtB_succ] at hp hq
      have := occCount_unique_aux n hn rest p' (by omega) hp q' hq
      omega

theorem occCount_unique (n s : L) (hn : n ≠ []) (hc : occCount n s = 1)
    (p : Nat) (hp : occursAtB n s p = true) :
    ∀ q, occursAtB n s q = true → q = p :=
  fun q hq => occCount_unique_aux n hn s p hc hp q hq

/- ### Behavior of the replacement scan -/

theorem replAux_cons_pos (old new : L) (c : Char) (rest : L) (hn : old ≠ [])
    (h : old.isPrefixOf (c :: rest) = true) :
    replAux old new (c :: rest) 0 = new ++ replAux old new rest (old.length - 1) := by
  have hlen : ((old.length == 0) = false) := by
    simp [List.length_eq_zero, hn]
  rw [replAux, h, hlen]
  rfl

theorem replAux_cons_neg (old new : L) (c : Char) (rest : L)
    (h : old.isPrefixOf (c :: rest) = false) :
    replAux old new (c :: rest) 0 = c :: replAux old new rest 0 := by
  rw [replAux, h]
  rfl

theorem replAux_skip (old new : L) : ∀ (x t : L) (k : Nat),
    replAux old new (x ++ t) (x.length + k) = replAux old new t k
  | [], t, k => by simp
  | c :: x', t, k => by
    have h1 : (c :: x').length + k = (x'.length + k) + 1 := by
      rw [List.length_cons]
      omega
    rw [List.cons_append, h1, replAux]
    exact replAux_skip old new x' t k

theorem replAux_id (old new : L) : ∀ (s : L), (∀ q, occursAtB old s q = false) →
    replAux old new s 0 = s
  | [], _ => rfl
  | c :: rest, h => by
    have h0 : old.isPrefixOf (c :: rest) = false := by
      have := h 0
      rwa [occursAtB, List.drop_zero] at this
    rw [replAux_cons_neg old new c rest h0]
    congr 1
    exact replAux_id old new rest (fun q => by
      have := h (q + 1)
      rwa [occursAtB, List.drop_succ_cons] at this)

theorem replAux_unique (old new : L) (hn : old ≠ []) :
    ∀ (p : Nat) (s : L), occursAtB old s p = true →
    (∀ q, occursAtB old s q = true → q = p) →
    replAux old new s 0 = s.take p ++ new ++ s.drop (p + old.length)
  | 0, s, hp, hu => by
    have hp0 : old <+: s := by
      have := (occursAtB_iff old s 0).mp hp
      rwa [List.drop_zero] at this
    obtain ⟨t, ht⟩ := hp0
    subst ht
    obtain ⟨o, old', rfl⟩ : ∃ o old', old = o :: old' := by
      cases old with
      | nil => exact absurd rfl hn
      | cons o old' => exact ⟨o, old', rfl⟩
    rw [List.cons_append]
    have hpre : (o :: old').isPrefixOf (o :: (old' ++ t)) = true := by
      rw [List.isPrefixOf_iff_prefix]
      exact ⟨t, by simp⟩
    rw [replAux_cons_pos (o :: old') new o (old' ++ t) hn hpre]
    have hnone : ∀ q, occursAtB (o :: old') t q = false := by
      intro q
      by_contra hq
      rw [Bool.not_eq_false] at hq
      have hdrop : ((o :: old') ++ t).drop ((o :: old').length + q) = t.drop q := by
        rw [← List.drop_drop, List.drop_left]
      have hq' := hu ((o :: old').length + q) (by
        rw [occursAtB, hdrop]
        exact hq)
      rw [List.length_cons] at hq'
      omega
    have hskip : (o :: old').length - 1 = old'.length := by
      rw [List.length_cons]
      omega
    have hrest : replAux (o :: old') new (old' ++ t) old'.length = t := by
      have h1 : old'.length = old'.length + 0 := by omega
      rw [h1, replAux_skip]
      exact replAux_id _ new t hnone
    rw [hskip, hrest]
    simp [List.drop_left]
  | p + 1, s, hp, hu => by
    obtain ⟨c, rest, rfl⟩ : ∃ c rest, s = c :: rest := by
      cases s with
      | nil =>
        rw [occursAtB, List.drop_nil] at hp
        cases old with
        | nil => exact absurd rfl hn
        | cons o old' => exact absurd hp (by simp [List.isPrefixOf])
      | cons c rest => exact ⟨c, rest, rfl⟩
    have h0 : old.isPrefixOf (c :: rest) = false := by
      by_contra hq
      rw [Bool.not_eq_false] at hq
      have : (0 : Nat) = p + 1 := hu 0 (by
        rw [occursAtB, List.drop_zero]
        exact hq)
      omega
    rw [replAux_cons_neg old new c rest h0]
    have hp' : occursAtB old rest p = true := by
      rw [occursAtB] at hp ⊢
      rwa [List.drop_succ_cons] at hp
    have hu' : ∀ q, occursAtB old rest q = true → q = p := by
      intro q hq
      have : q + 1 = p + 1 := hu (q + 1) (by
        rw [occursAtB] at hq ⊢
        rwa [List.drop_succ_cons])
      omega
    rw [replAux_unique old new hn p rest hp' hu']
    rw [List.take_succ_cons]
    have hd : (c :: rest).drop (p + 1 + old.length) = rest.drop (p + old.length) := by
      rw [show p + 1 + old.length = (p + old.length) + 1 from by omega, List.drop_succ_cons]
    rw [hd]
    simp

theorem replaceAll_unique (old new s : L) (hn : old ≠ []) (p : Nat)
    (hp : occursAtB old s p = true) (hu : ∀ q, occursAtB old s q = true → q = p) :
    replaceAll old new s = s.take p ++ new ++ s.drop (p + old.length) :=
  replAux_unique old new hn p s hp hu

/- ### Decomposition of `rstrip` -/

theorem rstrip_append (s : L) : rstrip s ++ (s.reverse.takeWhile pySpace).reverse = s := by
  rw [rstrip, ← List.reverse_append, List.takeWhile_append_dropWhile, List.reverse_reverse]

theorem rstrip_ws (s : L) : ∀ c ∈ (s.reverse.takeWhile pySpace).reverse, pySpace c = true := by
  intro c hc
  rw [List.mem_reverse] at hc
  exact List.mem_takeWhile_imp hc

/- ### Stage lemmas: explicit forms of the four rewrite steps -/

theorem stepGroup_eq (u1 u2 doc : L) (m : GroupMatch)
    (hsg : searchGroup doc = some m)
    (huniq : occCount (extract doc m.s0 (m.ce + 2)) doc = 1) :
    stepGroup u1 u2 doc = some (groupPatched u1 u2 doc m) := by
  have h := hsg
  rw [searchGroup] at h
  cases h1 : findFirstFrom grpMarker doc 0 with
  | none => rw [h1] at h; exact absurd h (by simp)
  | some i =>
  rw [h1] at h
  dsimp only at h
  cases h2 : findFirstFrom childrenLit doc (i + grpMarker.length) with
  | none => rw [h2] at h; exact absurd h (by simp)
  | some j =>
  rw [h2] at h
  dsimp only at h
  cases h3 : findFirstFrom parenSemi doc (j + childrenLit.length) with
  | none => rw [h3] at h; exact absurd h (by simp)
  | some k =>
  rw [h3] at h
  dsimp only at h
  injection h with h
  subst h
  dsimp only at huniq ⊢
  have hscs : i ≤ j + childrenLit.length := by
    have := fff_le _ _ _ _ h2
    omega
  have hcsce : j + childrenLit.length ≤ k := fff_le _ _ _ _ h3
  have hps : occursAtB parenSemi doc k = true := fff_occ _ _ _ _ h3
  have hne2 : parenSemi ≠ [] := by decide
  have hkl : k + parenSemi.length ≤ doc.length := occursAtB_le _ _ _ hne2 hps
  have hp2 : parenSemi.length = 2 := by decide
  rw [hp2] at hkl
  have hg0len : (extract doc i (k + 2)).length = (k + 2) - i :=
    length_extract doc i (k + 2) (by omega)
  have hg0ne : extract doc i (k + 2) ≠ [] := by
    intro he
    rw [he] at hg0len
    simp at hg0len
    omega
  have hocc : occursAtB (extract doc i (k + 2)) doc i = true := occursAtB_extract doc i (k + 2)
  have hu := occCount_unique _ _ hg0ne huniq i hocc
  have hstep : stepGroup u1 u2 doc = some (replaceAll (extract doc i (k + 2))
      (extract doc i (j + childrenLit.length) ++
        newChildrenOf (extract doc (j + childrenLit.length) k) u1 u2 ++ parenSemi) doc) := by
    unfold stepGroup
    rw [hsg]
  rw [hstep]
  congr 1
  rw [replaceAll_unique _ _ _ hg0ne i hocc hu, hg0len]
  have hik : i + ((k + 2) - i) = k + 2 := by omega
  rw [hik]
  rw [groupPatched]
  dsimp only
  have e1 : doc.take (j + childrenLit.length) = doc.take i ++ extract doc i (j + childrenLit.length) :=
    (take_extract_join doc i _ hscs).symm
  have e2 : doc.drop k = parenSemi ++ doc.drop (k + 2) := by
    have := occursAtB_drop_split parenSemi doc k hps
    rwa [hp2] at this
  rw [e1, e2]
  simp [List.append_assoc]

theorem stepSection_eq (beginLit endLit block doc : L)
    (hbne : beginLit ≠ []) (hene : endLit ≠ [])
    (p q : Nat) (hs : searchSection beginLit endLit doc = some (p, q))
    (huniq : occCount (extract doc p (q + endLit.length)) doc = 1) :
    replaceAll (extract doc p (q + endLit.length))
        (beginLit ++ (extract doc (p + beginLit.length) q ++ block) ++ endLit) doc
      = sectionPatched beginLit block doc p q := by
  have h := hs
  rw [searchSection] at h
  cases h1 : findFirstFrom beginLit doc 0 with
  | none => rw [h1] at h; exact absurd h (by simp)
  | some p' =>
  rw [h1] at h
  dsimp only at h
  cases h2 : findFirstFrom endLit doc (p' + beginLit.length) with
  | none => rw [h2] at h; exact absurd h (by simp)
  | some q' =>
  rw [h2] at h
  dsimp only at h
  injection h with h
  have hpq : p' = p ∧ q' = q := by
    have := Prod.mk.injEq p' q' p q ▸ h
    exact Prod.mk.inj h
  obtain ⟨rfl, rfl⟩ := hpq
  have hbq : p' + beginLit.length ≤ q' := fff_le _ _ _ _ h2
  have hob : occursAtB beginLit doc p' = true := fff_occ _ _ _ _ h1
  have hoe : occursAtB endLit doc q' = true := fff_occ _ _ _ _ h2
  have hql : q' + endLit.length ≤ doc.length := occursAtB_le _ _ _ hene hoe
  have helen : 0 < endLit.length := List.length_pos.mpr hene
  have hg0len : (extract doc p' (q' + endLit.length)).length = (q' + endLit.length) - p' :=
    length_extract doc p' (q' + endLit.length) (by omega)
  have hg0ne : extract doc p' (q' + endLit.length) ≠ [] := by
    intro he
    rw [he] at hg0len
    simp at hg0len
    omega
  have hocc : occursAtB (extract doc p' (q' + endLit.length)) doc p' :=
    occursAtB_extract doc p' (q' + endLit.length)
  have hu := occCount_unique _ _ hg0ne huniq p' hocc
  rw [replaceAll_unique _ _ _ hg0ne p' hocc hu, hg0len]
  have hik : p' + ((q' + endLit.length) - p') = q' + endLit.length := by omega
  rw [hik]
  rw [sectionPatched]
  have e1 : doc.take (p' + beginLit.length) = doc.take p' ++ beginLit :=
    (occursAtB_take_join beginLit doc p' hbne hob).symm
  have e2 : doc.drop q' = endLit ++ doc.drop (q' + endLit.length) :=
    occursAtB_drop_split endLit doc q' hoe
  rw [e1, e2]
  simp [List.append_assoc]

theorem stepFileRef_eq (u1 u2 doc : L) (p q : Nat)
    (hs : searchSection frBegin frEnd doc = some (p, q))
    (huniq : occCount (extract doc p (q + frEnd.length)) doc = 1) :
    stepFileRef u1 u2 doc = sectionPatched frBegin (fileRefBlock u1 u2) doc p q := by
  have hstep : stepFileRef u1 u2 doc = replaceAll (extract doc p (q + frEnd.length))
      (frBegin ++ (extract doc (p + frBegin.length) q ++ fileRefBlock u1 u2) ++ frEnd) doc := by
    unfold stepFileRef
    rw [hs]
  rw [hstep]
  exact stepSection_eq frBegin frEnd (fileRefBlock u1 u2) doc (by decide) (by decide) p q hs huniq

theorem stepFileRef_id (u1 u2 doc : L) (hs : searchSection frBegin frEnd doc = none) :
    stepFileRef u1 u2 doc = doc := by
  unfold stepFileRef
  rw [hs]

theorem stepBuildFile_eq (u1 u2 u3 u4 doc : L) (p q : Nat)
    (hs : searchSection bfBegin bfEnd doc = some (p, q))
    (huniq : occCount (extract doc p (q + bfEnd.length)) doc = 1) :
    stepBuildFile u1 u2 u3 u4 doc = sectionPatched bfBegin (buildFileBlock u1 u2 u3 u4) doc p q := by
  have hstep : stepBuildFile u1 u2 u3 u4 doc = replaceAll (extract doc p (q + bfEnd.length))
      (bfBegin ++ (extract doc (p + bfBegin.length) q ++ buildFileBlock u1 u2 u3 u4) ++ bfEnd) doc := by
    unfold stepBuildFile
    rw [hs]
  rw [hstep]
  exact stepSection_eq bfBegin bfEnd (buildFileBlock u1 u2 u3 u4) doc (by decide) (by decide) p q hs huniq

theorem stepBuildFile_id (u1 u2 u3 u4 doc : L) (hs : searchSection bfBegin bfEnd doc = none) :
    stepBuildFile u1 u2 u3 u4 doc = doc := by
  unfold stepBuildFile
  rw [hs]

theorem stepSources_eq (u3 u4 doc : L) (m : SourcesMatch)
    (hs : searchSources doc = some m)
    (hcx : containsStr tgtMarker (extract doc (m.s0 - 1000) (m.e0 + 1000)) = true)
    (huniq : occCount (extract doc m.s0 m.e0) doc = 1) :
    stepSources u3 u4 doc = sourcesPatched u3 u4 doc m := by
  have h := hs
  rw [searchSources] at h
  cases h1 : findFirstFrom srcMarker doc 0 with
  | none => rw [h1] at h; exact absurd h (by simp)
  | some i =>
  rw [h1] at h
  dsimp only at h
  cases h2 : findFirstFrom srcIsa doc (i + srcMarker.length) with
  | none => rw [h2] at h; exact absurd h (by simp)
  | some a =>
  rw [h2] at h
  dsimp only at h
  cases h3 : findFirstFrom filesLit doc (a + srcIsa.length) with
  | none => rw [h3] at h; exact absurd h (by simp)
  | some b =>
  rw [h3] at h
  dsimp only at h
  cases h4 : findFirstFrom parenSemi doc (b + filesLit.length) with
  | none => rw [h4] at h; exact absurd h (by simp)
  | some k =>
  rw [h4] at h
  dsimp only at h
  cases h5 : findFirstFrom runOnlyLit doc (k + parenSemi.length) with
  | none => rw [h5] at h; exact absurd h (by simp)
  | some r =>
  rw [h5] at h
  dsimp only at h
  injection h with h
  subst h
  dsimp only at hcx huniq ⊢
  have hia : i + srcMarker.length ≤ a := fff_le _ _ _ _ h2
  have hab : a + srcIsa.length ≤ b := fff_le _ _ _ _ h3
  have hbk : b + filesLit.length ≤ k := fff_le _ _ _ _ h4
  have hkr : k + parenSemi.length ≤ r := fff_le _ _ _ _ h5
  have hor : occursAtB runOnlyLit doc r = true := fff_occ _ _ _ _ h5
  have hrne : runOnlyLit ≠ [] := by decide
  have hrl : r + runOnlyLit.length ≤ doc.length := occursAtB_le _ _ _ hrne hor
  have hg0len : (extract doc i (r + runOnlyLit.length)).length = (r + runOnlyLit.length) - i :=
    length_extract doc i (r + runOnlyLit.length) (by omega)
  have hg0ne : extract doc i (r + runOnlyLit.length) ≠ [] := by
    intro he
    rw [he] at hg0len
    simp at hg0len
    have h2' : 0 < parenSemi.length := by decide
    omega
  have hocc : occursAtB (extract doc i (r + runOnlyLit.length)) doc i :=
    occursAtB_extract doc i (r + runOnlyLit.length)
  have hu := occCount_unique _ _ hg0ne huniq i hocc
  have hstep : stepSources u3 u4 doc = replaceAll (extract doc i (r + runOnlyLit.length))
      (extract doc i (b + filesLit.length) ++
        newSourcesOf (extract doc (b + filesLit.length) k) u3 u4 ++
        extract doc k (r + runOnlyLit.length)) doc := by
    unfold stepSources
    rw [hs]
    dsimp only
    rw [if_pos hcx]
  rw [hstep]
  rw [replaceAll_unique _ _ _ hg0ne i hocc hu, hg0len]
  have hik : i + ((r + runOnlyLit.length) - i) = r + runOnlyLit.length := by omega
  rw [hik]
  rw [sourcesPatched]
  dsimp only
  have e1 : doc.take (b + filesLit.length) = doc.take i ++ extract doc i (b + filesLit.length) :=
    (take_extract_join doc i _ (by omega)).symm
  have e2 : extract doc k (r + runOnlyLit.length) ++ doc.drop (r + runOnlyLit.length) = doc.drop k :=
    extract_drop_join doc k (r + runOnlyLit.length) (by omega)
  rw [e1, ← e2]
  simp [List.append_assoc]

theorem stepSources_id_none (u3 u4 doc : L) (hs : searchSources doc = none) :
    stepSources u3 u4 doc = doc := by
  unfold stepSources
  rw [hs]

theorem stepSources_id_ctx (u3 u4 doc : L) (m : SourcesMatch)
    (hs : searchSources doc = some m)
    (hcx : containsStr tgtMarker (extract doc (m.s0 - 1000) (m.e0 + 1000)) = false) :
    stepSources u3 u4 doc = doc := by
  unfold stepSources
  rw [hs]
  dsimp only
  rw [if_neg (by rw [hcx]; exact Bool.false_ne_true)]

/- ### Ordering facts returned by the searches -/

theorem searchGroup_le (doc : L) (m : GroupMatch) (hsg : searchGroup doc = some m) :
    m.s0 ≤ m.cs ∧ m.cs ≤ m.ce := by
  have h := hsg
  rw [searchGroup] at h
  cases h1 : findFirstFrom grpMarker doc 0 with
  | none => rw [h1] at h; exact absurd h (by simp)
  | some i =>
  rw [h1] at h
  dsimp only at h
  cases h2 : findFirstFrom childrenLit doc (i + grpMarker.length) with
  | none => rw [h2] at h; exact absurd h (by simp)
  | some j =>
  rw [h2] at h
  dsimp only at h
  cases h3 : findFirstFrom parenSemi doc (j + childrenLit.length) with
  | none => rw [h3] at h; exact absurd h (by simp)
  | some k =>
  rw [h3] at h
  dsimp only at h
  injection h with h
  subst h
  have ha := fff_le _ _ _ _ h2
  have hb := fff_le _ _ _ _ h3
  exact ⟨by dsimp only; omega, by dsimp only; omega⟩

theorem searchSection_le (beginLit endLit doc : L) (p q : Nat)
    (hs : searchSection beginLit endLit doc = some (p, q)) :
    p + beginLit.length ≤ q := by
  have h := hs
  rw [searchSection] at h
  cases h1 : findFirstFrom beginLit doc 0 with
  | none => rw [h1] at h; exact absurd h (by simp)
  | some p' =>
  rw [h1] at h
  dsimp only at h
  cases h2 : findFirstFrom endLit doc (p' + beginLit.length) with
  | none => rw [h2] at h; exact absurd h (by simp)
  | some q' =>
  rw [h2] at h
  dsimp only at h
  injection h with h
  obtain ⟨rfl, rfl⟩ := Prod.mk.inj h
  exact fff_le _ _ _ _ h2

theorem searchSources_le (doc : L) (m : SourcesMatch) (hs : searchSources doc = some m) :
    m.s0 ≤ m.fs ∧ m.fs ≤ m.fe ∧ m.fe ≤ m.e0 := by
  have h := hs
  rw [searchSources] at h
  cases h1 : findFirstFrom srcMarker doc 0 with
  | none => rw [h1] at h; exact absurd h (by simp)
  | some i =>
  rw [h1] at h
  dsimp only at h
  cases h2 : findFirstFrom srcIsa doc (i + srcMarker.length) with
  | none => rw [h2] at h; exact absurd h (by simp)
  | some a =>
  rw [h2] at h
  dsimp only at h
  cases h3 : findFirstFrom filesLit doc (a + srcIsa.length) with
  | none => rw [h3] at h; exact absurd h (by simp)
  | some b =>
  rw [h3] at h
  dsimp only at h
  cases h4 : findFirstFrom parenSemi doc (b + filesLit.length) with
  | none => rw [h4] at h; exact absurd h (by simp)
  | some k =>
  rw [h4] at h
  dsimp only at h
  cases h5 : findFirstFrom runOnlyLit doc (k + parenSemi.length) with
  | none => rw [h5] at h; exact absurd h (by simp)
  | some r =>
  rw [h5] at h
  dsimp only at h
  injection h with h
  subst h
  have ha := fff_le _ _ _ _ h2
  have hb := fff_le _ _ _ _ h3
  have hc := fff_le _ _ _ _ h4
  have hd := fff_le _ _ _ _ h5
  have hp2 : parenSemi.length = 2 := by decide
  refine ⟨by dsimp only; omega, by dsimp only; omega, by dsimp only; omega⟩

/- ### Shapes of the inserted texts -/

theorem newChildrenOf_decomp (kids u1 u2 : L) :
    ∃ sep, newChildrenOf kids u1 u2 =
      rstrip kids ++ (sep ++ favRefChildLine u1 ++ resRefChildLine u2) := by
  simp only [newChildrenOf]
  by_cases h : [','].isSuffixOf (rstrip kids) = true
  · exact ⟨[], by rw [if_pos h]; simp [List.append_assoc]⟩
  · exact ⟨[','], by rw [if_neg h]; simp [List.append_assoc]⟩

theorem newSourcesOf_decomp (files u3 u4 : L) :
    ∃ sep, newSourcesOf files u3 u4 =
      rstrip files ++ (sep ++ srcFavLine u3 ++ srcResLine u4) := by
  simp only [newSourcesOf]
  by_cases h : [','].isSuffixOf (rstrip files) = true
  · exact ⟨[], by rw [if_pos h]; simp [List.append_assoc]⟩
  · exact ⟨[','], by rw [if_neg h]; simp [List.append_assoc]⟩

theorem infix_of_mid {x b : L} (a c : L) (h : x <:+: b) : x <:+: a ++ b ++ c :=
  h.trans (List.infix_append a b c)

theorem infix_fav_newChildren (kids u1 u2 : L) :
    favRefChildLine u1 <:+: newChildrenOf kids u1 u2 := by
  obtain ⟨sep, hsep⟩ := newChildrenOf_decomp kids u1 u2
  rw [hsep]
  exact (List.infix_append sep (favRefChildLine u1) (resRefChildLine u2)).trans
    (List.IsSuffix.isInfix (List.suffix_append _ _))

theorem infix_res_newChildren (kids u1 u2 : L) :
    resRefChildLine u2 <:+: newChildrenOf kids u1 u2 := by
  obtain ⟨sep, hsep⟩ := newChildrenOf_decomp kids u1 u2
  rw [hsep]
  exact (List.IsSuffix.isInfix (List.suffix_append _ _)).trans
    (List.IsSuffix.isInfix (List.suffix_append _ _))

theorem infix_fav_newSources (files u3 u4 : L) :
    srcFavLine u3 <:+: newSourcesOf files u3 u4 := by
  obtain ⟨sep, hsep⟩ := newSourcesOf_decomp files u3 u4
  rw [hsep]
  exact (List.infix_append sep (srcFavLine u3) (srcResLine u4)).trans
    (List.IsSuffix.isInfix (List.suffix_append _ _))

theorem infix_res_newSources (files u3 u4 : L) :
    srcResLine u4 <:+: newSourcesOf files u3 u4 := by
  obtain ⟨sep, hsep⟩ := newSourcesOf_decomp files u3 u4
  rw [hsep]
  exact (List.IsSuffix.isInfix (List.suffix_append _ _)).trans
    (List.IsSuffix.isInfix (List.suffix_append _ _))

/- ### The whole successful run, explicitly -/

theorem fullRunSpec (doc u1 u2 u3 u4 : L) (m : GroupMatch) (frp frq bfp bfq : Nat)
    (sm : SourcesMatch) (d1 d2 d3 d4 : L)
    (hg : searchGroup doc = some m)
    (hu1 : occCount (extract doc m.s0 (m.ce + 2)) doc = 1)
    (e1 : groupPatched u1 u2 doc m = d1)
    (hf : searchSection frBegin frEnd d1 = some (frp, frq))
    (hu2 : occCount (extract d1 frp (frq + frEnd.length)) d1 = 1)
    (e2 : sectionPatched frBegin (fileRefBlock u1 u2) d1 frp frq = d2)
    (hb : searchSection bfBegin bfEnd d2 = some (bfp, bfq))
    (hu3 : occCount (extract d2 bfp (bfq + bfEnd.length)) d2 = 1)
    (e3 : sectionPatched bfBegin (buildFileBlock u1 u2 u3 u4) d2 bfp bfq = d3)
    (hs : searchSources d3 = some sm)
    (hcx : containsStr tgtMarker (extract d3 (sm.s0 - 1000) (sm.e0 + 1000)) = true)
    (hu4 : occCount (extract d3 sm.s0 sm.e0) d3 = 1)
    (e4 : sourcesPatched u3 u4 d3 sm = d4) :
    add_files_to_xcode_project u1 u2 u3 u4 (some doc) =
      ⟨true, some d4, 1, 1, successMsgs u1 u2⟩ := by
  have s1 : stepGroup u1 u2 doc = some d1 := by
    rw [stepGroup_eq u1 u2 doc m hg hu1, e1]
  have s2 : stepFileRef u1 u2 d1 = d2 := by
    rw [stepFileRef_eq u1 u2 d1 frp frq hf hu2, e2]
  have s3 : stepBuildFile u1 u2 u3 u4 d2 = d3 := by
    rw [stepBuildFile_eq u1 u2 u3 u4 d2 bfp bfq hb hu3, e3]
  have s4 : stepSources u3 u4 d3 = d4 := by
    rw [stepSources_eq u3 u4 d3 sm hs hcx hu4, e4]
  unfold add_files_to_xcode_project
  dsimp only
  rw [s1]
  dsimp only
  rw [s2, s3, s4]

/- ### One-step frame facts -/

theorem groupPatched_insertOnly (u1 u2 doc : L) (m : GroupMatch) (hle : m.cs ≤ m.ce) :
    InsertOnlyAt doc (groupPatched u1 u2 doc m) := by
  obtain ⟨sep, hsep⟩ := newChildrenOf_decomp (extract doc m.cs m.ce) u1 u2
  refine ⟨m.cs, m.ce, rstrip (extract doc m.cs m.ce),
    ((extract doc m.cs m.ce).reverse.takeWhile pySpace).reverse,
    sep ++ favRefChildLine u1 ++ resRefChildLine u2, hle,
    (rstrip_append (extract doc m.cs m.ce)).symm, rstrip_ws _, ?_⟩
  rw [groupPatched, hsep]

theorem sectionPatched_insertOnly (beginLit block doc : L) (p q : Nat)
    (hle : p + beginLit.length ≤ q) :
    InsertOnlyAt doc (sectionPatched beginLit block doc p q) := by
  refine ⟨p + beginLit.length, q, extract doc (p + beginLit.length) q, [], block, hle,
    (List.append_nil _).symm, by simp, ?_⟩
  rw [sectionPatched]

theorem sourcesPatched_insertOnly (u3 u4 doc : L) (m : SourcesMatch) (hle : m.fs ≤ m.fe) :
    InsertOnlyAt doc (sourcesPatched u3 u4 doc m) := by
  obtain ⟨sep, hsep⟩ := newSourcesOf_decomp (extract doc m.fs m.fe) u3 u4
  refine ⟨m.fs, m.fe, rstrip (extract doc m.fs m.fe),
    ((extract doc m.fs m.fe).reverse.takeWhile pySpace).reverse,
    sep ++ srcFavLine u3 ++ srcResLine u4, hle,
    (rstrip_append (extract doc m.fs m.fe)).symm, rstrip_ws _, ?_⟩
  rw [sourcesPatched, hsep]

/- ### Facts about the identifier generator -/

theorem pyUpperInjTable :
    ∀ c ∈ lowHexDigits, ∀ d ∈ lowHexDigits, pyUpperChar c = pyUpperChar d → c = d := by
  decide

theorem pyUpperMapsTable : ∀ c ∈ lowHexDigits, pyUpperChar c ∈ upHexDigits := by
  decide

theorem map_pyUpper_inj : ∀ (l1 l2 : L), (∀ c ∈ l1, c ∈ lowHexDigits) →
    (∀ c ∈ l2, c ∈ lowHexDigits) → l1.map pyUpperChar = l2.map pyUpperChar → l1 = l2
  | [], [], _, _, _ => rfl
  | [], _ :: _, _, _, h => by simp at h
  | _ :: _, [], _, _, h => by simp at h
  | c :: l1, d :: l2, ha, hb, h => by
    simp only [List.map_cons, List.cons.injEq] at h
    have hc : c = d := pyUpperInjTable c (ha c (by simp)) d (hb d (by simp)) h.1
    subst hc
    have htl := map_pyUpper_inj l1 l2 (fun x hx => ha x (by simp [hx]))
      (fun x hx => hb x (by simp [hx])) h.2
    rw [htl]

theorem validUuid4Hex_unpack (hX : L) (hv : validUuid4Hex hX = true) :
    hX.length = 32 ∧ ∀ c ∈ hX, c ∈ lowHexDigits := by
  rw [validUuid4Hex, Bool.and_eq_true] at hv
  refine ⟨by simpa using hv.1, ?_⟩
  intro c hc
  have hall := List.all_eq_true.mp hv.2 c hc
  exact List.elem_iff.mp (by simpa using hall)

theorem srcFavLine_ne_nil (u : L) : srcFavLine u ≠ [] := by
  rw [srcFavLine]
  have h : ("\n\t\t\t\t".toList : L) = '\n' :: "\t\t\t\t".toList := rfl
  rw [h]
  simp

/- ### The claims -/

/-- C1: for a manifest whose test-group region matches uniquely, whose
file-reference and build-file sections match uniquely in the successive
intermediate documents, and whose sources-phase region matches uniquely with
the marker inside the proximity window, one run returns `True`, reads once,
writes once, and writes exactly the explicit splice `d4`: stage 1 inserts
exactly the two new child entries, stage 2 exactly the two file-reference
declarations, stage 3 exactly the two build-file declarations — whose
`fileRef` fields are the two file-reference identifiers, by definition of
`buildFileBlock` — and stage 4 exactly the two sources-phase entries naming
the two build-file identifiers.  The infix conjuncts exhibit the inserted
entries inside the successive documents. -/
theorem claim1_full_insertion (doc u1 u2 u3 u4 : L) (m : GroupMatch)
    (frp frq bfp bfq : Nat) (sm : SourcesMatch) (d1 d2 d3 d4 : L)
    (hg : searchGroup doc = some m)
    (hu1 : occCount (extract doc m.s0 (m.ce + 2)) doc = 1)
    (e1 : groupPatched u1 u2 doc m = d1)
    (hf : searchSection frBegin frEnd d1 = some (frp, frq))
    (hu2 : occCount (extract d1 frp (frq + frEnd.length)) d1 = 1)
    (e2 : sectionPatched frBegin (fileRefBlock u1 u2) d1 frp frq = d2)
    (hb : searchSection bfBegin bfEnd d2 = some (bfp, bfq))
    (hu3 : occCount (extract d2 bfp (bfq + bfEnd.length)) d2 = 1)
    (e3 : sectionPatched bfBegin (buildFileBlock u1 u2 u3 u4) d2 bfp bfq = d3)
    (hs : searchSources d3 = some sm)
    (hcx : containsStr tgtMarker (extract d3 (sm.s0 - 1000) (sm.e0 + 1000)) = true)
    (hu4 : occCount (extract d3 sm.s0 sm.e0) d3 = 1)
    (e4 : sourcesPatched u3 u4 d3 sm = d4) :
    add_files_to_xcode_project u1 u2 u3 u4 (some doc) =
      ⟨true, some d4, 1, 1, successMsgs u1 u2⟩ ∧
    favRefChildLine u1 <:+: d1 ∧ resRefChildLine u2 <:+: d1 ∧
    fileRefBlock u1 u2 <:+: d2 ∧ buildFileBlock u1 u2 u3 u4 <:+: d3 ∧
    srcFavLine u3 <:+: d4 ∧ srcResLine u4 <:+: d4 := by
  refine ⟨fullRunSpec doc u1 u2 u3 u4 m frp frq bfp bfq sm d1 d2 d3 d4
    hg hu1 e1 hf hu2 e2 hb hu3 e3 hs hcx hu4 e4, ?_, ?_, ?_, ?_, ?_, ?_⟩
  · rw [← e1, groupPatched]
    exact infix_of_mid _ _ (infix_fav_newChildren _ u1 u2)
  · rw [← e1, groupPatched]
    exact infix_of_mid _ _ (infix_res_newChildren _ u1 u2)
  · rw [← e2, sectionPatched]
    exact infix_of_mid _ _ (List.IsSuffix.isInfix (List.suffix_append _ _))
  · rw [← e3, sectionPatched]
    exact infix_of_mid _ _ (List.IsSuffix.isInfix (List.suffix_append _ _))
  · rw [← e4, sourcesPatched]
    exact infix_of_mid _ _ (infix_fav_newSources _ u3 u4)
  · rw [← e4, sourcesPatched]
    exact infix_of_mid _ _ (infix_res_newSources _ u3 u4)

/-- Concrete instantiation of C1 on the demonstration manifest. -/
theorem claim1_witness :
    add_files_to_xcode_project demoU1 demoU2 demoU3 demoU4 (some demoDoc) =
      ⟨true, some demoD4, 1, 1, successMsgs demoU1 demoU2⟩ ∧
    favRefChildLine demoU1 <:+: demoD1 ∧ resRefChildLine demoU2 <:+: demoD1 ∧
    fileRefBlock demoU1 demoU2 <:+: demoD2 ∧
    buildFileBlock demoU1 demoU2 demoU3 demoU4 <:+: demoD3 ∧
    srcFavLine demoU3 <:+: demoD4 ∧ srcResLine demoU4 <:+: demoD4 :=
  claim1_full_insertion demoDoc demoU1 demoU2 demoU3 demoU4 demoGM
    demoFR.1 demoFR.2 demoBF.1 demoBF.2 demoSM demoD1 demoD2 demoD3 demoD4
    (by decide) (by decide) (listEqB_eq _ _ (by decide))
    (by decide) (by decide) (listEqB_eq _ _ (by decide))
    (by decide) (by decide) (listEqB_eq _ _ (by decide))
    (by decide) (by decide) (by decide) (listEqB_eq _ _ (by decide))

/-- C2: when the group pattern finds no match, the run returns `False` after
printing the group error, performs the read but no write, and the stored
manifest is byte-for-byte the input document. -/
theorem claim2_group_missing (doc u1 u2 u3 u4 : L) (h : searchGroup doc = none) :
    add_files_to_xcode_project u1 u2 u3 u4 (some doc) =
      ⟨false, some doc, 1, 0, [errNoGroupMsg]⟩ := by
  have hsg : stepGroup u1 u2 doc = none := by
    unfold stepGroup
    rw [h]
  unfold add_files_to_xcode_project
  dsimp only
  rw [hsg]

/-- Concrete instantiation of C2 on the empty document. -/
theorem claim2_witness :
    add_files_to_xcode_project demoU1 demoU2 demoU3 demoU4 (some []) =
      ⟨false, some [], 1, 0, [errNoGroupMsg]⟩ :=
  claim2_group_missing [] demoU1 demoU2 demoU3 demoU4 rfl

/-- C7: when the manifest file does not exist, the run prints the not-found
error and returns `False` without reading or writing anything. -/
theorem claim7_missing_file (u1 u2 u3 u4 : L) :
    add_files_to_xcode_project u1 u2 u3 u4 none =
      ⟨false, none, 0, 0, [errMissingMsg]⟩ := rfl

/-- C9: the `__main__` block never translates the success flag into an exit
code; for every file-system state and every choice of random draws the
process exits 0, on the success path and on both failure paths alike. -/
theorem claim9_exit_code_zero (u1 u2 u3 u4 : L) (fs0 : Option L) :
    (mainScript u1 u2 u3 u4 fs0).exitCode = 0 := rfl

/-- C8: whenever the group step matches, the run writes the file exactly once
and returns `True`, whatever happens in the three optional steps — the model
keeps no second copy of the file, so no backup exists.  The written content is
the result of piping the group-patched document through the three remaining
steps (each of which may be the identity). -/
theorem claim8_unconditional_write (doc u1 u2 u3 u4 d1 : L)
    (h : stepGroup u1 u2 doc = some d1) :
    (add_files_to_xcode_project u1 u2 u3 u4 (some doc)).writes = 1 ∧
    (add_files_to_xcode_project u1 u2 u3 u4 (some doc)).ret = true ∧
    (add_files_to_xcode_project u1 u2 u3 u4 (some doc)).file =
      some (stepSources u3 u4 (stepBuildFile u1 u2 u3 u4 (stepFileRef u1 u2 d1))) := by
  have hrun : add_files_to_xcode_project u1 u2 u3 u4 (some doc) =
      ⟨true, some (stepSources u3 u4 (stepBuildFile u1 u2 u3 u4 (stepFileRef u1 u2 d1))), 1, 1,
        successMsgs u1 u2⟩ := by
    unfold add_files_to_xcode_project
    dsimp only
    rw [h]
  rw [hrun]
  exact ⟨rfl, rfl, rfl⟩

/-- Concrete instantiation of C8 on a manifest where only the group matches
and all three optional regions are absent. -/
theorem claim8_witness :
    (add_files_to_xcode_project demoU1 demoU2 demoU3 demoU4 (some c8Doc)).writes = 1 ∧
    (add_files_to_xcode_project demoU1 demoU2 demoU3 demoU4 (some c8Doc)).ret = true ∧
    (add_files_to_xcode_project demoU1 demoU2 demoU3 demoU4 (some c8Doc)).file =
      some (stepSources demoU3 demoU4
        (stepBuildFile demoU1 demoU2 demoU3 demoU4 (stepFileRef demoU1 demoU2 c8D1))) :=
  claim8_unconditional_write c8Doc demoU1 demoU2 demoU3 demoU4 c8D1 (by decide)

/-- C5: when the group matches (uniquely) but the build-file section markers
are absent after the first two edits, the run still returns `True`, prints
only the success lines, writes once, the build-file step is the identity
(silently skipped), and the two new child entries are in the group. -/
theorem claim5_partial_success (doc u1 u2 u3 u4 : L) (m : GroupMatch) (d1 : L)
    (hg : searchGroup doc = some m)
    (hu1 : occCount (extract doc m.s0 (m.ce + 2)) doc = 1)
    (e1 : groupPatched u1 u2 doc m = d1)
    (hb : searchSection bfBegin bfEnd (stepFileRef u1 u2 d1) = none) :
    (add_files_to_xcode_project u1 u2 u3 u4 (some doc)).ret = true ∧
    (add_files_to_xcode_project u1 u2 u3 u4 (some doc)).msgs = successMsgs u1 u2 ∧
    (add_files_to_xcode_project u1 u2 u3 u4 (some doc)).writes = 1 ∧
    stepBuildFile u1 u2 u3 u4 (stepFileRef u1 u2 d1) = stepFileRef u1 u2 d1 ∧
    (add_files_to_xcode_project u1 u2 u3 u4 (some doc)).file =
      some (stepSources u3 u4 (stepFileRef u1 u2 d1)) ∧
    favRefChildLine u1 <:+: d1 ∧ resRefChildLine u2 <:+: d1 := by
  have s1 : stepGroup u1 u2 doc = some d1 := by
    rw [stepGroup_eq u1 u2 doc m hg hu1, e1]
  have sb : stepBuildFile u1 u2 u3 u4 (stepFileRef u1 u2 d1) = stepFileRef u1 u2 d1 :=
    stepBuildFile_id _ _ _ _ _ hb
  have hrun : add_files_to_xcode_project u1 u2 u3 u4 (some doc) =
      ⟨true, some (stepSources u3 u4 (stepFileRef u1 u2 d1)), 1, 1, successMsgs u1 u2⟩ := by
    unfold add_files_to_xcode_project
    dsimp only
    rw [s1]
    dsimp only
    rw [sb]
  rw [hrun]
  refine ⟨rfl, rfl, rfl, sb, rfl, ?_, ?_⟩
  · rw [← e1, groupPatched]
    exact infix_of_mid _ _ (infix_fav_newChildren _ u1 u2)
  · rw [← e1, groupPatched]
    exact infix_of_mid _ _ (infix_res_newChildren _ u1 u2)

/-- Concrete instantiation of C5 on a manifest without a build-file section. -/
theorem claim5_witness :
    (add_files_to_xcode_project demoU1 demoU2 demoU3 demoU4 (some c5Doc)).ret = true ∧
    (add_files_to_xcode_project demoU1 demoU2 demoU3 demoU4 (some c5Doc)).msgs =
      successMsgs demoU1 demoU2 ∧
    (add_files_to_xcode_project demoU1 demoU2 demoU3 demoU4 (some c5Doc)).writes = 1 ∧
    stepBuildFile demoU1 demoU2 demoU3 demoU4 (stepFileRef demoU1 demoU2 c5D1) =
      stepFileRef demoU1 demoU2 c5D1 ∧
    (add_files_to_xcode_project demoU1 demoU2 demoU3 demoU4 (some c5Doc)).file =
      some (stepSources demoU3 demoU4 (stepFileRef demoU1 demoU2 c5D1)) ∧
    favRefChildLine demoU1 <:+: c5D1 ∧ resRefChildLine demoU2 <:+: c5D1 :=
  claim5_partial_success c5Doc demoU1 demoU2 demoU3 demoU4 c5GM c5D1
    (by decide) (by decide) rfl (by decide)

/-- C3 counterexample: `c3Doc` holds two textually identical sources-phase
regions (occurrence count 2: one at position 0, one behind the 1100-character
filler), and the group marker lies inside the window of the second region
only.  The claim says the second region receives the two new entries; in
fact the matcher returns the first region, the window check fails there, and
the run inserts no sources-phase entry anywhere: the written file is just the
group-patched document, which contains neither new sources entry. -/
theorem claim3_counterexample :
    occCount c3Region c3Doc = 2 ∧
    occursAtB c3Region c3Doc 0 = true ∧
    occursAtB c3Region c3Doc (c3Region.length + 1100) = true ∧
    searchSources c3Doc = some c3SM ∧
    c3SM.s0 = 0 ∧
    containsStr tgtMarker
      (extract c3Doc (c3SM.s0 - 1000) (c3SM.e0 + 1000)) = false ∧
    containsStr tgtMarker
      (extract c3Doc (c3Region.length + 1100 - 1000) 5000) = true ∧
    (add_files_to_xcode_project demoU1 demoU2 demoU3 demoU4 (some c3Doc)).ret = true ∧
    (add_files_to_xcode_project demoU1 demoU2 demoU3 demoU4 (some c3Doc)).file = some c3D1 ∧
    containsStr (srcFavLine demoU3) c3D1 = false ∧
    containsStr (srcResLine demoU4) c3D1 = false := by
  have hsg : searchGroup c3Doc = some c3GM := by decide
  have hstep : stepGroup demoU1 demoU2 c3Doc = some c3D1 := by
    unfold stepGroup
    rw [hsg]
    exact congrArg some (listEqB_eq _ _ (by decide))
  have hfr : searchSection frBegin frEnd c3D1 = none := by decide
  have hbf : searchSection bfBegin bfEnd c3D1 = none := by decide
  have hss : searchSources c3D1 = some c3SM := by decide
  have hcx : containsStr tgtMarker
      (extract c3D1 (c3SM.s0 - 1000) (c3SM.e0 + 1000)) = false := by decide
  have hrun : add_files_to_xcode_project demoU1 demoU2 demoU3 demoU4 (some c3Doc) =
      ⟨true, some c3D1, 1, 1, successMsgs demoU1 demoU2⟩ := by
    unfold add_files_to_xcode_project
    dsimp only
    rw [hstep]
    dsimp only
    rw [stepFileRef_id _ _ _ hfr, stepBuildFile_id _ _ _ _ _ hbf,
        stepSources_id_ctx _ _ _ _ hss hcx]
  refine ⟨by decide, by decide, by decide, by decide, by decide, by decide, by decide,
    ?_, ?_, by decide, by decide⟩
  · rw [hrun]
  · rw [hrun]

/-- C3 corrected: the patcher consults only the first regex match of the
sources-phase pattern.  When the marker is not inside that first match's
1000-character window, the sources step changes nothing at all — in
particular a later identical region lying near the marker never receives the
entries.  (When the marker is inside the first match's window, the first
matched region is the one extended; `stepSources_eq`.) -/
theorem claim3_first_match_only (doc u3 u4 : L) (m : SourcesMatch)
    (hs : searchSources doc = some m)
    (hcx : containsStr tgtMarker (extract doc (m.s0 - 1000) (m.e0 + 1000)) = false) :
    stepSources u3 u4 doc = doc :=
  stepSources_id_ctx u3 u4 doc m hs hcx

/-- Concrete instantiation of the corrected C3 on a single marker-free
sources region. -/
theorem claim3_witness : stepSources demoU3 demoU4 c3Region = c3Region :=
  claim3_first_match_only c3Region demoU3 demoU4 c3SM (by decide) (by decide)

/-- C4: the patcher keeps no record of prior insertions.  For a manifest on
which one run succeeds fully (all four regions match uniquely) and whose
once-patched result again matches in all four regions — which the appended
entries never destroy — a second run with fresh identifiers succeeds again and
appends a further duplicate set of entries: its sources phase gains
`srcFavLine w3`, a line absent from the first run's output, so the document
after two runs differs from the document after one run. -/
theorem claim4_second_run_appends
    (doc v1 v2 v3 v4 w1 w2 w3 w4 : L)
    (m : GroupMatch) (frp frq bfp bfq : Nat) (sm : SourcesMatch) (d1 d2 d3 d4 : L)
    (m2 : GroupMatch) (fp2 fq2 bp2 bq2 : Nat) (sm2 : SourcesMatch) (t1 t2 t3 t4 : L)
    (hg : searchGroup doc = some m)
    (hu1 : occCount (extract doc m.s0 (m.ce + 2)) doc = 1)
    (e1 : groupPatched v1 v2 doc m = d1)
    (hf : searchSection frBegin frEnd d1 = some (frp, frq))
    (hu2 : occCount (extract d1 frp (frq + frEnd.length)) d1 = 1)
    (e2 : sectionPatched frBegin (fileRefBlock v1 v2) d1 frp frq = d2)
    (hb : searchSection bfBegin bfEnd d2 = some (bfp, bfq))
    (hu3 : occCount (extract d2 bfp (bfq + bfEnd.length)) d2 = 1)
    (e3 : sectionPatched bfBegin (buildFileBlock v1 v2 v3 v4) d2 bfp bfq = d3)
    (hs : searchSources d3 = some sm)
    (hcx : containsStr tgtMarker (extract d3 (sm.s0 - 1000) (sm.e0 + 1000)) = true)
    (hu4 : occCount (extract d3 sm.s0 sm.e0) d3 = 1)
    (e4 : sourcesPatched v3 v4 d3 sm = d4)
    (hg' : searchGroup d4 = some m2)
    (hu1' : occCount (extract d4 m2.s0 (m2.ce + 2)) d4 = 1)
    (e1' : groupPatched w1 w2 d4 m2 = t1)
    (hf' : searchSection frBegin frEnd t1 = some (fp2, fq2))
    (hu2' : occCount (extract t1 fp2 (fq2 + frEnd.length)) t1 = 1)
    (e2' : sectionPatched frBegin (fileRefBlock w1 w2) t1 fp2 fq2 = t2)
    (hb' : searchSection bfBegin bfEnd t2 = some (bp2, bq2))
    (hu3' : occCount (extract t2 bp2 (bq2 + bfEnd.length)) t2 = 1)
    (e3' : sectionPatched bfBegin (buildFileBlock w1 w2 w3 w4) t2 bp2 bq2 = t3)
    (hs' : searchSources t3 = some sm2)
    (hcx' : containsStr tgtMarker (extract t3 (sm2.s0 - 1000) (sm2.e0 + 1000)) = true)
    (hu4' : occCount (extract t3 sm2.s0 sm2.e0) t3 = 1)
    (e4' : sourcesPatched w3 w4 t3 sm2 = t4)
    (hfresh : containsStr (srcFavLine w3) d4 = false) :
    add_files_to_xcode_project v1 v2 v3 v4 (some doc) =
      ⟨true, some d4, 1, 1, successMsgs v1 v2⟩ ∧
    add_files_to_xcode_project w1 w2 w3 w4 (some d4) =
      ⟨true, some t4, 1, 1, successMsgs w1 w2⟩ ∧
    srcFavLine w3 <:+: t4 ∧
    t4 ≠ d4 := by
  have r1 := fullRunSpec doc v1 v2 v3 v4 m frp frq bfp bfq sm d1 d2 d3 d4
    hg hu1 e1 hf hu2 e2 hb hu3 e3 hs hcx hu4 e4
  have r2 := fullRunSpec d4 w1 w2 w3 w4 m2 fp2 fq2 bp2 bq2 sm2 t1 t2 t3 t4
    hg' hu1' e1' hf' hu2' e2' hb' hu3' e3' hs' hcx' hu4' e4'
  have hinf : srcFavLine w3 <:+: t4 := by
    rw [← e4', sourcesPatched]
    exact infix_of_mid _ _ (infix_fav_newSources _ w3 w4)
  refine ⟨r1, r2, hinf, ?_⟩
  intro heq
  rw [heq] at hinf
  have hcontr := containsStr_of_infix _ _ (srcFavLine_ne_nil w3) hinf
  rw [hfresh] at hcontr
  exact absurd hcontr (by simp)

/-- Concrete instantiation of C4: two successive runs on the demonstration
manifest, with distinct identifier draws per run. -/
theorem claim4_witness :
    add_files_to_xcode_project demoU1 demoU2 demoU3 demoU4 (some demoDoc) =
      ⟨true, some demoD4, 1, 1, successMsgs demoU1 demoU2⟩ ∧
    add_files_to_xcode_project demoW1 demoW2 demoW3 demoW4 (some demoD4) =
      ⟨true, some demoE4, 1, 1, successMsgs demoW1 demoW2⟩ ∧
    srcFavLine demoW3 <:+: demoE4 ∧
    demoE4 ≠ demoD4 :=
  claim4_second_run_appends demoDoc demoU1 demoU2 demoU3 demoU4
    demoW1 demoW2 demoW3 demoW4
    demoGM demoFR.1 demoFR.2 demoBF.1 demoBF.2 demoSM
    demoD1 demoD2 demoD3 demoD4
    demoGM2 demoFR2.1 demoFR2.2 demoBF2.1 demoBF2.2 demoSM2
    demoE1 demoE2 demoE3 demoE4
    (by decide) (by decide) (listEqB_eq _ _ (by decide))
    (by decide) (by decide) (listEqB_eq _ _ (by decide))
    (by decide) (by decide) (listEqB_eq _ _ (by decide))
    (by decide) (by decide) (by decide) (listEqB_eq _ _ (by decide))
    (by decide) (by decide) (listEqB_eq _ _ (by decide))
    (by decide) (by decide) (listEqB_eq _ _ (by decide))
    (by decide) (by decide) (listEqB_eq _ _ (by decide))
    (by decide) (by decide) (by decide) (listEqB_eq _ _ (by decide))
    (by decide)

/-- C10: frame property.  When the group matches and every region that a step
of the run locates has a matched text occurring exactly once in its document
(so the global replacement rewrites only the intended region), the run is a
chain of at most four local rewrites: each one keeps every character outside
its located region's list body, keeps the body's content up to a trailing
whitespace run that the right-trim removes, and only inserts new text behind
it — no pre-existing entry is removed or rewritten. -/
theorem claim10_frame (doc u1 u2 u3 u4 : L) (m : GroupMatch) (d1 d2 d3 d4 : L)
    (hg : searchGroup doc = some m)
    (hu1 : occCount (extract doc m.s0 (m.ce + 2)) doc = 1)
    (e1 : stepGroup u1 u2 doc = some d1)
    (e2 : stepFileRef u1 u2 d1 = d2)
    (hu2 : ∀ p q, searchSection frBegin frEnd d1 = some (p, q) →
      occCount (extract d1 p (q + frEnd.length)) d1 = 1)
    (e3 : stepBuildFile u1 u2 u3 u4 d2 = d3)
    (hu3 : ∀ p q, searchSection bfBegin bfEnd d2 = some (p, q) →
      occCount (extract d2 p (q + bfEnd.length)) d2 = 1)
    (e4 : stepSources u3 u4 d3 = d4)
    (hu4 : ∀ sm, searchSources d3 = some sm → occCount (extract d3 sm.s0 sm.e0) d3 = 1) :
    (add_files_to_xcode_project u1 u2 u3 u4 (some doc)).file = some d4 ∧
    InsertOnlyAt doc d1 ∧ InsertOnly d1 d2 ∧ InsertOnly d2 d3 ∧ InsertOnly d3 d4 := by
  refine ⟨?_, ?_, ?_, ?_, ?_⟩
  · have hrun : add_files_to_xcode_project u1 u2 u3 u4 (some doc) =
        ⟨true, some (stepSources u3 u4 (stepBuildFile u1 u2 u3 u4 (stepFileRef u1 u2 d1))), 1, 1,
          successMsgs u1 u2⟩ := by
      unfold add_files_to_xcode_project
      dsimp only
      rw [e1]
    rw [hrun]
    dsimp only
    rw [e2, e3, e4]
  · have hsome := stepGroup_eq u1 u2 doc m hg hu1
    rw [e1] at hsome
    have hd1 : d1 = groupPatched u1 u2 doc m := Option.some.inj hsome
    rw [hd1]
    exact groupPatched_insertOnly u1 u2 doc m (searchGroup_le doc m hg).2
  · cases hsec : searchSection frBegin frEnd d1 with
    | none =>
      left
      rw [← e2, stepFileRef_id u1 u2 d1 hsec]
    | some pq =>
      right
      obtain ⟨p, q⟩ := pq
      have heq := stepFileRef_eq u1 u2 d1 p q hsec (hu2 p q hsec)
      rw [e2] at heq
      rw [heq]
      exact sectionPatched_insertOnly frBegin (fileRefBlock u1 u2) d1 p q
        (searchSection_le frBegin frEnd d1 p q hsec)
  · cases hsec : searchSection bfBegin bfEnd d2 with
    | none =>
      left
      rw [← e3, stepBuildFile_id u1 u2 u3 u4 d2 hsec]
    | some pq =>
      right
      obtain ⟨p, q⟩ := pq
      have heq := stepBuildFile_eq u1 u2 u3 u4 d2 p q hsec (hu3 p q hsec)
      rw [e3] at heq
      rw [heq]
      exact sectionPatched_insertOnly bfBegin (buildFileBlock u1 u2 u3 u4) d2 p q
        (searchSection_le bfBegin bfEnd d2 p q hsec)
  · cases hsec : searchSources d3 with
    | none =>
      left
      rw [← e4, stepSources_id_none u3 u4 d3 hsec]
    | some sm =>
      cases hcx : containsStr tgtMarker (extract d3 (sm.s0 - 1000) (sm.e0 + 1000)) with
      | false =>
        left
        rw [← e4, stepSources_id_ctx u3 u4 d3 sm hsec hcx]
      | true =>
        right
        have heq := stepSources_eq u3 u4 d3 sm hsec hcx (hu4 sm hsec)
        rw [e4] at heq
        rw [heq]
        exact sourcesPatched_insertOnly u3 u4 d3 sm (searchSources_le d3 sm hsec).2.1

/-- Concrete instantiation of C10 on the demonstration manifest. -/
theorem claim10_witness :
    (add_files_to_xcode_project demoU1 demoU2 demoU3 demoU4 (some demoDoc)).file = some demoD4 ∧
    InsertOnlyAt demoDoc demoD1 ∧ InsertOnly demoD1 demoD2 ∧
    InsertOnly demoD2 demoD3 ∧ InsertOnly demoD3 demoD4 := by
  have hsg : searchGroup demoDoc = some demoGM := by decide
  have e1 : stepGroup demoU1 demoU2 demoDoc = some demoD1 := by
    unfold stepGroup
    rw [hsg]
    exact congrArg some (listEqB_eq _ _ (by decide))
  have hfr : searchSection frBegin frEnd demoD1 = some (104, 170) := by decide
  have e2 : stepFileRef demoU1 demoU2 demoD1 = demoD2 := by
    unfold stepFileRef
    rw [hfr]
    exact listEqB_eq _ _ (by decide)
  have hbf : searchSection bfBegin bfEnd demoD2 = some (0, 73) := by decide
  have e3 : stepBuildFile demoU1 demoU2 demoU3 demoU4 demoD2 = demoD3 := by
    unfold stepBuildFile
    rw [hbf]
    exact listEqB_eq _ _ (by decide)
  have hss : searchSources demoD3 = some demoSM := by decide
  have hctx : containsStr tgtMarker
      (extract demoD3 (demoSM.s0 - 1000) (demoSM.e0 + 1000)) = true := by decide
  have e4 : stepSources demoU3 demoU4 demoD3 = demoD4 := by
    unfold stepSources
    rw [hss]
    dsimp only
    rw [if_pos hctx]
    exact listEqB_eq _ _ (by decide)
  refine claim10_frame demoDoc demoU1 demoU2 demoU3 demoU4 demoGM demoD1 demoD2 demoD3 demoD4
    hsg (by decide) e1 e2 ?_ e3 ?_ e4 ?_
  · intro p q hpq
    rw [hfr] at hpq
    injection hpq with hpq
    obtain ⟨h1, h2⟩ := Prod.mk.inj hpq
    subst h1
    subst h2
    decide
  · intro p q hpq
    rw [hbf] at hpq
    injection hpq with hpq
    obtain ⟨h1, h2⟩ := Prod.mk.inj hpq
    subst h1
    subst h2
    decide
  · intro sm hsm
    rw [hss] at hsm
    injection hsm with hsm
    subst hsm
    decide

/-- C6 counterexample: nothing in `generate_uuid` checks for collisions, so a
run whose first two `uuid4().hex` draws coincide — a possible, if
astronomically unlikely, outcome of the random source — produces identical
first and second identifiers: the four identifiers of that run are not
pairwise distinct.  (The format half of the claim does hold; see the
corrected theorem.) -/
theorem claim6_counterexample :
    validUuid4Hex demoHexA = true ∧ validUuid4Hex demoHexB = true ∧
    validUuid4Hex demoHexC = true ∧
    runIdsDistinct demoHexA demoHexA demoHexB demoHexC = false := by
  decide

/-- C6 corrected: every identifier generated from a well-formed `uuid4().hex`
draw is exactly 24 uppercase hexadecimal characters, and the four identifiers
of a run are pairwise distinct provided the four draws differ within their
first 24 characters — the part of a draw that `generate_uuid` keeps.
Distinctness is not guaranteed unconditionally: it fails when draws collide,
which the script never checks. -/
theorem claim6_format_and_distinct (h1 h2 h3 h4 : L)
    (hv1 : validUuid4Hex h1 = true) (hv2 : validUuid4Hex h2 = true)
    (hv3 : validUuid4Hex h3 = true) (hv4 : validUuid4Hex h4 = true)
    (hd12 : h1.take 24 ≠ h2.take 24) (hd13 : h1.take 24 ≠ h3.take 24)
    (hd14 : h1.take 24 ≠ h4.take 24) (hd23 : h2.take 24 ≠ h3.take 24)
    (hd24 : h2.take 24 ≠ h4.take 24) (hd34 : h3.take 24 ≠ h4.take 24) :
    runIdsDistinct h1 h2 h3 h4 = true ∧
    uuidFormatOk (generate_uuid h1) = true ∧ uuidFormatOk (generate_uuid h2) = true ∧
    uuidFormatOk (generate_uuid h3) = true ∧ uuidFormatOk (generate_uuid h4) = true := by
  have fmt : ∀ hX : L, validUuid4Hex hX = true → uuidFormatOk (generate_uuid hX) = true := by
    intro hX hv
    obtain ⟨hlen, hmem⟩ := validUuid4Hex_unpack hX hv
    rw [uuidFormatOk, Bool.and_eq_true]
    constructor
    · rw [generate_uuid, List.length_map, List.length_take, hlen]
      rfl
    · rw [generate_uuid, List.all_eq_true]
      intro x hx
      rw [List.mem_map] at hx
      obtain ⟨c, hc, rfl⟩ := hx
      have hpre := List.take_prefix 24 hX
      have hcl : c ∈ lowHexDigits := hmem c (hpre.subset hc)
      exact List.elem_iff.mpr (pyUpperMapsTable c hcl)
  have inj : ∀ a b : L, validUuid4Hex a = true → validUuid4Hex b = true →
      a.take 24 ≠ b.take 24 → (generate_uuid a != generate_uuid b) = true := by
    intro a b hva hvb hne
    rw [bne_iff_ne]
    intro heq
    apply hne
    obtain ⟨_, hma⟩ := validUuid4Hex_unpack a hva
    obtain ⟨_, hmb⟩ := validUuid4Hex_unpack b hvb
    have hpa := List.take_prefix 24 a
    have hpb := List.take_prefix 24 b
    exact map_pyUpper_inj (a.take 24) (b.take 24)
      (fun c hc => hma c (hpa.subset hc)) (fun c hc => hmb c (hpb.subset hc)) heq
  refine ⟨?_, fmt h1 hv1, fmt h2 hv2, fmt h3 hv3, fmt h4 hv4⟩
  rw [runIdsDistinct]
  rw [inj h1 h2 hv1 hv2 hd12, inj h1 h3 hv1 hv3 hd13, inj h1 h4 hv1 hv4 hd14,
      inj h2 h3 hv2 hv3 hd23, inj h2 h4 hv2 hv4 hd24, inj h3 h4 hv3 hv4 hd34]
  rfl

/-- Concrete instantiation of the corrected C6 on four distinct draws. -/
theorem claim6_witness :
    runIdsDistinct demoHexA demoHexB demoHexC demoHexD = true ∧
    uuidFormatOk (generate_uuid demoHexA) = true ∧
    uuidFormatOk (generate_uuid demoHexB) = true ∧
    uuidFormatOk (generate_uuid demoHexC) = true ∧
    uuidFormatOk (generate_uuid demoHexD) = true :=
  claim6_format_and_distinct demoHexA demoHexB demoHexC demoHexD
    (by decide) (by decide) (by decide) (by decide)
    (by decide) (by decide) (by decide) (by decide) (by decide) (by decide)
